import Mathlib

/-!
# Priority sampling (`ext/priority_sampling/priority_sampling.c`)

A shallow embedding of the priority-sampling decision engine of the tracer
and theorems about it.

Conventions of the embedding.

* A `zval` is the inductive type `Zval`; a `zend_array` with string keys is an
  association list in insertion order (`HashTable`).
* C `double`s are `CDouble`: a finite value is carried as the exact rational it
  denotes.  The only arithmetic the file performs is the conversion of an
  unsigned 64-bit integer to `double` (round to nearest, ties to even) and the
  product with `(double)~0ULL`, which is the power of two `2^64`.
* Spans live in a heap indexed by natural numbers; `span->root` is a heap index.
* A `zend_long` is a mathematical integer: the file copies and compares
  priorities and performs no arithmetic on them.  The one conversion is at line
  61, where the `zend_long` global `default_priority_sampling` is copied to the
  local `int priority`: it is `zend_long_to_int`, reduction modulo `2^32` into
  the range of `int`.  The priority constants of the header are C `int`s.
* The random generator, the rate limiter, the regular-expression engine, the
  out-of-line zval conversions, the configuration getters and the numeric
  values of the priority constants are declared outside the file and are taken
  as parameters (`Env`).
* The three mutually recursive C functions are given a recursion budget
  (`fuel`); theorems that state a result show that the budget suffices.
-/

namespace PrioritySampling

/-! ## Doubles -/

/-- The C type `double` (IEEE-754 binary64); finite values as exact rationals. -/
inductive CDouble where
  | finite (q : ℚ)
  | pos_inf
  | neg_inf
  | nan

/-- The C comparison `a < b` on doubles: false as soon as one side is a NaN. -/
def CDouble.lt : CDouble → CDouble → Bool
  | .finite a, .finite b => decide (a < b)
  | .finite _, .pos_inf => true
  | .neg_inf, .finite _ => true
  | .neg_inf, .pos_inf => true
  | _, _ => false

/-- The conversion `(double)n` of an unsigned 64-bit integer: `n` is rounded to
53 significant bits, to nearest, ties to even.  The result is an integer. -/
def uint64_to_double (n : Nat) : Nat :=
  if n < 2 ^ 53 then n
  else
    let e := Nat.log2 n - 52
    let q := n / 2 ^ e
    let r := n % 2 ^ e
    if 2 * r < 2 ^ e then q * 2 ^ e
    else if 2 ^ e < 2 * r then (q + 1) * 2 ^ e
    else if q % 2 = 0 then q * 2 ^ e
    else (q + 1) * 2 ^ e

/-- The value `~0ULL`, the largest unsigned 64-bit integer. -/
def ULLONG_MAX : Nat := 2 ^ 64 - 1

/-- The product `x * (double)k` for `k` a power of two between `1` and `2^64`
given as a natural number: scaling a binary64 by such a power of two is exact
unless it overflows to an infinity. -/
def CDouble.mul_pow2 (x : CDouble) (k : Nat) : CDouble :=
  match x with
  | .finite q =>
    if (2 : ℚ) ^ 1024 ≤ q * k then .pos_inf
    else if q * k ≤ -(2 : ℚ) ^ 1024 then .neg_inf
    else .finite (q * k)
  | .pos_inf => .pos_inf
  | .neg_inf => .neg_inf
  | .nan => .nan

/-! ## Zvals and hash tables -/

/-- A `zend_array` whose keys are strings, in insertion order. -/
abbrev HashTable (V : Type) := List (String × V)

/-- The PHP value type `zval`, by type tag. -/
inductive Zval where
  | undef
  | null
  | false_
  | true_
  | long (n : Int)
  | double (d : CDouble)
  | string (s : String)
  | array (ht : List (String × Zval))
  | object

/-- The lookup `zend_hash_str_find(ht, key)`; `none` is the NULL pointer. -/
def zend_hash_str_find {V : Type} : HashTable V → String → Option V
  | [], _ => none
  | (k, v) :: rest, key => if k = key then some v else zend_hash_str_find rest key

/-- The test `zend_hash_str_exists(ht, key)`. -/
def zend_hash_str_exists {V : Type} (ht : HashTable V) (key : String) : Bool :=
  (zend_hash_str_find ht key).isSome

/-- The call `zend_hash_str_update(ht, key, v)`: overwrite in place or append. -/
def zend_hash_str_update {V : Type} : HashTable V → String → V → HashTable V
  | [], key, v => [(key, v)]
  | (k, x) :: rest, key, v =>
    if k = key then (k, v) :: rest else (k, x) :: zend_hash_str_update rest key v

/-- The call `zend_hash_str_add_new(ht, key, v)`: append; the caller has checked
that the key is absent. -/
def zend_hash_str_add_new {V : Type} (ht : HashTable V) (key : String) (v : V) : HashTable V :=
  ht ++ [(key, v)]

/-- The call `zend_hash_str_del(ht, key)`. -/
def zend_hash_str_del {V : Type} : HashTable V → String → HashTable V
  | [], _ => []
  | (k, x) :: rest, key =>
    if k = key then zend_hash_str_del rest key else (k, x) :: zend_hash_str_del rest key

/-! ## Spans, globals and collaborators -/

/-- The enumeration `dd_sampling_mechanism`. -/
inductive dd_sampling_mechanism where
  | DD_MECHANISM_AGENT_RATE
  | DD_MECHANISM_REMOTE_RATE
  | DD_MECHANISM_RULE
  | DD_MECHANISM_MANUAL
  deriving DecidableEq

/-- The integer value of an enumerator of `dd_sampling_mechanism`. -/
def dd_sampling_mechanism.code : dd_sampling_mechanism → Nat
  | .DD_MECHANISM_AGENT_RATE => 1
  | .DD_MECHANISM_REMOTE_RATE => 2
  | .DD_MECHANISM_RULE => 3
  | .DD_MECHANISM_MANUAL => 4

/-- The part of `ddtrace_span_data` the file touches: the `service` and `name`
properties, the `metrics` and `meta` arrays and the `root` pointer. -/
structure ddtrace_span_data where
  service : Zval
  name : Zval
  metrics : HashTable Zval
  meta : HashTable Zval
  root : Nat

/-- The conversion of a `zend_long` to the C type `int` (32 bits, two's
complement): the value is reduced modulo `2^32` into `[-2^31, 2^31)`. -/
def zend_long_to_int (n : Int) : Int :=
  (n + 2 ^ 31) % 2 ^ 32 - 2 ^ 31

/-- What the file uses and does not define: the priority constants of
`priority_sampling.h`, the configuration, the regular-expression engine, the
generator `genrand64_int64` (over generator states `R`), the rate limiter (over
limiter states `L`) and the out-of-line zval conversions. -/
structure Env (R L : Type) where
  DDTRACE_PRIORITY_SAMPLING_UNKNOWN : Int
  DDTRACE_PRIORITY_SAMPLING_UNSET : Int
  PRIORITY_SAMPLING_AUTO_KEEP : Int
  PRIORITY_SAMPLING_AUTO_REJECT : Int
  PRIORITY_SAMPLING_USER_KEEP : Int
  PRIORITY_SAMPLING_USER_REJECT : Int
  /-- The constant compared with, and the constants assigned to, the local
  `int priority` are C `int`s: the conversion to `int` leaves them unchanged. -/
  constants_are_int :
    zend_long_to_int DDTRACE_PRIORITY_SAMPLING_UNKNOWN = DDTRACE_PRIORITY_SAMPLING_UNKNOWN ∧
    zend_long_to_int PRIORITY_SAMPLING_AUTO_KEEP = PRIORITY_SAMPLING_AUTO_KEEP ∧
    zend_long_to_int PRIORITY_SAMPLING_AUTO_REJECT = PRIORITY_SAMPLING_AUTO_REJECT ∧
    zend_long_to_int PRIORITY_SAMPLING_USER_KEEP = PRIORITY_SAMPLING_USER_KEEP ∧
    zend_long_to_int PRIORITY_SAMPLING_USER_REJECT = PRIORITY_SAMPLING_USER_REJECT
  /-- The field `zai_config_memoized_entries[DDTRACE_CONFIG_DD_TRACE_SAMPLE_RATE].name_index`. -/
  sample_rate_name_index : Int
  get_DD_TRACE_SAMPLE_RATE : CDouble
  /-- The values of the array `get_DD_TRACE_SAMPLING_RULES()` in iteration order. -/
  get_DD_TRACE_SAMPLING_RULES : List Zval
  /-- The zval `ret` that `php_pcre_match_impl` fills in for the compiled `regex`
  and the subject. -/
  php_pcre_match_impl : String → String → Zval
  /-- One call of `genrand64_int64()`: the draw and the next generator state. -/
  genrand64_int64 : R → Nat × R
  ddtrace_limiter_active : L → Bool
  /-- One call of `ddtrace_limiter_allow()`: the answer and the next limiter state. -/
  ddtrace_limiter_allow : L → Bool × L
  ddtrace_limiter_rate : L → CDouble
  zval_get_long_func : Zval → Int
  zval_get_double_func : Zval → CDouble

/-- The mutable state: the span heap, the module globals `DDTRACE_G(...)` the
file reads, the generator state and the limiter state. -/
structure State (R L : Type) where
  spans : Nat → ddtrace_span_data
  /-- The pointer `DDTRACE_G(active_stack)->root_span`; `none` is NULL. -/
  root_span : Option Nat
  default_priority_sampling : Int
  propagated_priority_sampling : Int
  mt19937 : R
  limiter : L

/-- Store a new `metrics` array in a span of the heap. -/
def State.set_metrics {R L : Type} (st : State R L) (span : Nat) (m : HashTable Zval) :
    State R L :=
  { st with spans := Function.update st.spans span { st.spans span with metrics := m } }

/-- Store a new `meta` array in a span of the heap. -/
def State.set_meta {R L : Type} (st : State R L) (span : Nat) (m : HashTable Zval) :
    State R L :=
  { st with spans := Function.update st.spans span { st.spans span with meta := m } }

/-- The inline `zval_get_long`: the payload of an `IS_LONG`, otherwise the
out-of-line conversion. -/
def zval_get_long {R L : Type} (env : Env R L) : Zval → Int
  | .long n => n
  | z => env.zval_get_long_func z

/-- The inline `zval_get_double`: the payload of an `IS_DOUBLE`, otherwise the
out-of-line conversion. -/
def zval_get_double {R L : Type} (env : Env R L) : Zval → CDouble
  | .double d => d
  | z => env.zval_get_double_func z

/-! ## The functions of the file -/

/-- The function `dd_rule_matches(pattern, prop)`. -/
def dd_rule_matches {R L : Type} (env : Env R L) (pattern prop : Zval) : Bool :=
  match pattern with
  | .string p =>
    match prop with
    | .string v =>
      match env.php_pcre_match_impl ("(" ++ p ++ ")") v with
      | .long n => decide (n > 0)
      | _ => false
    | _ => true
  | _ => false

/-- The body of the `ZEND_HASH_FOREACH_VAL` loop of `dd_decide_on_sampling` over
the remaining rules.  The pair is `(sample_rate, explicit_rule)`; it is returned
unchanged when the loop runs to its end and replaced at the `break`. -/
def dd_sampling_rules_loop {R L : Type} (env : Env R L) (span : ddtrace_span_data) :
    List Zval → CDouble × Bool → CDouble × Bool
  | [], acc => acc
  | rule :: rest, acc =>
    match rule with
    | .array ht =>
      let rule_matches := true
      let rule_matches :=
        match zend_hash_str_find ht "service" with
        | some rule_pattern => rule_matches && dd_rule_matches env rule_pattern span.service
        | none => rule_matches
      let rule_matches :=
        match zend_hash_str_find ht "name" with
        | some rule_pattern => rule_matches && dd_rule_matches env rule_pattern span.name
        | none => rule_matches
      match (if rule_matches then zend_hash_str_find ht "sample_rate" else none) with
      | some sample_rate_zv => (zval_get_double env sample_rate_zv, true)
      | none => dd_sampling_rules_loop env span rest acc
    | _ => dd_sampling_rules_loop env span rest acc

/-- The comparison `(double)genrand64_int64() < sample_rate * (double)~0ULL` for
a given draw. -/
def dd_sampling_test (draw : Nat) (sample_rate : CDouble) : Bool :=
  CDouble.lt (.finite (uint64_to_double (draw % 2 ^ 64)))
    (sample_rate.mul_pow2 (uint64_to_double ULLONG_MAX))

/-- Lines 25-37 of `dd_update_decision_maker_tag(span, mechanism)`: what the
function does once it has read the priority `sampling_priority` of the root. -/
def dd_update_decision_maker_tag_apply {R L : Type} (env : Env R L) (st : State R L)
    (span : Nat) (mechanism : dd_sampling_mechanism) (sampling_priority : Int) : State R L :=
  if st.propagated_priority_sampling = sampling_priority then st
  else if sampling_priority > 0 ∧ sampling_priority ≠ env.DDTRACE_PRIORITY_SAMPLING_UNSET then
    if zend_hash_str_exists (st.spans span).meta "_dd.p.dm" then st
    else
      st.set_meta span (zend_hash_str_add_new (st.spans span).meta "_dd.p.dm"
        (.string ("-" ++ toString mechanism.code)))
  else st.set_meta span (zend_hash_str_del (st.spans span).meta "_dd.p.dm")

/-- Lines 61-120 of `dd_decide_on_sampling(span)`: everything before the call of
`dd_update_decision_maker_tag`.  The local `int priority` receives the global
converted to `int`; it is that value which is tested at line 64 and stored at
line 118.  The result is the state reached and the value of the local
`mechanism`. -/
def dd_decide_on_sampling_store {R L : Type} (env : Env R L) (st : State R L) (span : Nat) :
    State R L × dd_sampling_mechanism :=
  let priority := zend_long_to_int st.default_priority_sampling
  if priority = env.DDTRACE_PRIORITY_SAMPLING_UNKNOWN then
    let explicit_rule := decide (env.sample_rate_name_index ≥ 0)
    let default_sample_rate := env.get_DD_TRACE_SAMPLE_RATE
    let found := dd_sampling_rules_loop env (st.spans span) env.get_DD_TRACE_SAMPLING_RULES
      (default_sample_rate, explicit_rule)
    let sample_rate := found.1
    let explicit_rule := found.2
    let drawn := env.genrand64_int64 st.mt19937
    let st := { st with mt19937 := drawn.2 }
    let sampling := dd_sampling_test drawn.1 sample_rate
    let active := env.ddtrace_limiter_active st.limiter
    let allowed :=
      if active && sampling then env.ddtrace_limiter_allow st.limiter else (true, st.limiter)
    let st := { st with limiter := allowed.2 }
    let limited := active && (sampling && !allowed.1)
    let mechanism :=
      if explicit_rule then dd_sampling_mechanism.DD_MECHANISM_RULE
      else dd_sampling_mechanism.DD_MECHANISM_AGENT_RATE
    let priority :=
      if explicit_rule then
        (if sampling && !limited then env.PRIORITY_SAMPLING_USER_KEEP
         else env.PRIORITY_SAMPLING_USER_REJECT)
      else
        (if sampling && !limited then env.PRIORITY_SAMPLING_AUTO_KEEP
         else env.PRIORITY_SAMPLING_AUTO_REJECT)
    let st := st.set_metrics span
      (zend_hash_str_update (st.spans span).metrics "_dd.rule_psr" (.double sample_rate))
    let st :=
      if limited then
        st.set_metrics span (zend_hash_str_update (st.spans span).metrics "_dd.limit_psr"
          (.double (env.ddtrace_limiter_rate st.limiter)))
      else st
    let st := st.set_metrics span
      (zend_hash_str_update (st.spans span).metrics "_sampling_priority_v1" (.long priority))
    (st, mechanism)
  else
    let st := st.set_metrics span
      (zend_hash_str_update (st.spans span).metrics "_sampling_priority_v1" (.long priority))
    (st, dd_sampling_mechanism.DD_MECHANISM_MANUAL)

mutual

/-- The function `dd_update_decision_maker_tag(span, mechanism)`: the priority
of `span->root` is read, then lines 25-37 run. -/
def dd_update_decision_maker_tag {R L : Type} (env : Env R L) :
    Nat → State R L → Nat → dd_sampling_mechanism → Option (State R L)
  | 0, _, _, _ => none
  | fuel + 1, st, span, mechanism =>
    match ddtrace_fetch_prioritySampling_from_span env fuel st (st.spans span).root with
    | none => none
    | some (sampling_priority, st) =>
      some (dd_update_decision_maker_tag_apply env st span mechanism sampling_priority)

/-- The function `dd_decide_on_sampling(span)`: lines 61-120, then the call of
`dd_update_decision_maker_tag(span, mechanism)`. -/
def dd_decide_on_sampling {R L : Type} (env : Env R L) :
    Nat → State R L → Nat → Option (State R L)
  | 0, _, _ => none
  | fuel + 1, st, span =>
    dd_update_decision_maker_tag env fuel (dd_decide_on_sampling_store env st span).1 span
      (dd_decide_on_sampling_store env st span).2

/-- The function `ddtrace_fetch_prioritySampling_from_span(root_span)`; the
result is `none` when the budget is exhausted or the second lookup of the
metric yields NULL. -/
def ddtrace_fetch_prioritySampling_from_span {R L : Type} (env : Env R L) :
    Nat → State R L → Nat → Option (Int × State R L)
  | 0, _, _ => none
  | fuel + 1, st, root_span =>
    match zend_hash_str_find (st.spans root_span).metrics "_sampling_priority_v1" with
    | some priority_zv => some (zval_get_long env priority_zv, st)
    | none =>
      if st.default_priority_sampling = env.DDTRACE_PRIORITY_SAMPLING_UNSET then
        some (env.DDTRACE_PRIORITY_SAMPLING_UNKNOWN, st)
      else
        match dd_decide_on_sampling env fuel st root_span with
        | none => none
        | some st =>
          match zend_hash_str_find (st.spans root_span).metrics "_sampling_priority_v1" with
          | some priority_zv => some (zval_get_long env priority_zv, st)
          | none => none

end

/-- The function `ddtrace_fetch_prioritySampling_from_root()`. -/
def ddtrace_fetch_prioritySampling_from_root {R L : Type} (env : Env R L) (fuel : Nat)
    (st : State R L) : Option (Int × State R L) :=
  match st.root_span with
  | none =>
    if st.default_priority_sampling = env.DDTRACE_PRIORITY_SAMPLING_UNSET then
      some (env.DDTRACE_PRIORITY_SAMPLING_UNKNOWN, st)
    else some (st.default_priority_sampling, st)
  | some root_span => ddtrace_fetch_prioritySampling_from_span env fuel st root_span

/-- The function `ddtrace_set_prioritySampling_on_root(priority)`. -/
def ddtrace_set_prioritySampling_on_root {R L : Type} (env : Env R L) (fuel : Nat)
    (st : State R L) (priority : Int) : Option (State R L) :=
  match st.root_span with
  | none => some st
  | some root_span =>
    if priority = env.DDTRACE_PRIORITY_SAMPLING_UNKNOWN ∨
        priority = env.DDTRACE_PRIORITY_SAMPLING_UNSET then
      some (st.set_metrics root_span
        (zend_hash_str_del (st.spans root_span).metrics "_sampling_priority_v1"))
    else
      let st := st.set_metrics root_span
        (zend_hash_str_update (st.spans root_span).metrics "_sampling_priority_v1"
          (.long priority))
      dd_update_decision_maker_tag env fuel st root_span dd_sampling_mechanism.DD_MECHANISM_MANUAL

/-! ## The rule set evaluator in the words of the specification -/

/-- Specification 4.2, one rule: a rule is adopted when it is a rule object,
every field it has among `service` and `name` matches the span, and it supplies
a `sample_rate`; the result is then that rate. -/
def spec_rule_rate {R L : Type} (env : Env R L) (span : ddtrace_span_data) : Zval → Option CDouble
  | .array ht =>
    let service_matches :=
      match zend_hash_str_find ht "service" with
      | some pattern => dd_rule_matches env pattern span.service
      | none => true
    let name_matches :=
      match zend_hash_str_find ht "name" with
      | some pattern => dd_rule_matches env pattern span.name
      | none => true
    if service_matches && name_matches then
      (zend_hash_str_find ht "sample_rate").map (zval_get_double env)
    else none
  | _ => none

/-- Specification 4.2, the evaluator: the rate of the first adopted rule in
declared order with "explicit rule used", otherwise the default rate with the
flag of the configuration. -/
def spec_rule_set_evaluator {R L : Type} (env : Env R L) (span : ddtrace_span_data)
    (rules : List Zval) (default_rate : CDouble) (explicitly_configured : Bool) :
    CDouble × Bool :=
  match rules.findSome? (spec_rule_rate env span) with
  | some rate => (rate, true)
  | none => (default_rate, explicitly_configured)

/-- Specification 4.2 and 7: an entry of the rule list is well formed when it
is a rule object (an array) that has a `sample_rate` field. -/
def spec_rule_well_formed : Zval → Bool
  | .array ht => (zend_hash_str_find ht "sample_rate").isSome
  | _ => false

/-! ## Sequences of accessor calls -/

/-- One call of `get_from_root` on the active root span, of
`get_from_active_trace` or of `set_on_active_trace` that returns: the state
before and the state after. -/
inductive accessor_step {R L : Type} (env : Env R L) : State R L → State R L → Prop where
  | get_from_root (fuel : Nat) (st st' : State R L) (root_span : Nat) (p : Int) :
      st.root_span = some root_span →
      ddtrace_fetch_prioritySampling_from_span env fuel st root_span = some (p, st') →
      accessor_step env st st'
  | get_from_active_trace (fuel : Nat) (st st' : State R L) (p : Int) :
      ddtrace_fetch_prioritySampling_from_root env fuel st = some (p, st') →
      accessor_step env st st'
  | set_on_active_trace (fuel : Nat) (st st' : State R L) (priority : Int) :
      ddtrace_set_prioritySampling_on_root env fuel st priority = some st' →
      accessor_step env st st'

/-- A fresh root span: `span` is the active root span, it is its own root, it
has no priority metric and no decision-maker tag. -/
def fresh_root_span {R L : Type} (st : State R L) (span : Nat) : Prop :=
  st.root_span = some span ∧ (st.spans span).root = span ∧
  zend_hash_str_find (st.spans span).metrics "_sampling_priority_v1" = none ∧
  zend_hash_str_find (st.spans span).meta "_dd.p.dm" = none

/-! ## Concrete configurations -/

/-- An environment for examples.  The priority constants have the values of the
tracer's header (`UNKNOWN = 0x40000000`, `UNSET = 0x40000001`, `AUTO_KEEP = 1`,
`AUTO_REJECT = 0`, `USER_KEEP = 2`, `USER_REJECT = -1`); the regular-expression
engine reports one match exactly when the pattern is the subject itself; the
generator always draws `draw` and counts its calls; the limiter always gives
the same two answers and counts the calls of `allow`. -/
def sample_env (rules : List Zval) (name_index : Int) (rate : CDouble) (draw : Nat)
    (active allow : Bool) : Env Nat Nat where
  DDTRACE_PRIORITY_SAMPLING_UNKNOWN := 0x40000000
  DDTRACE_PRIORITY_SAMPLING_UNSET := 0x40000001
  PRIORITY_SAMPLING_AUTO_KEEP := 1
  PRIORITY_SAMPLING_AUTO_REJECT := 0
  PRIORITY_SAMPLING_USER_KEEP := 2
  PRIORITY_SAMPLING_USER_REJECT := -1
  constants_are_int := by decide
  sample_rate_name_index := name_index
  get_DD_TRACE_SAMPLE_RATE := rate
  get_DD_TRACE_SAMPLING_RULES := rules
  php_pcre_match_impl := fun regex subject =>
    if regex = "(" ++ subject ++ ")" then .long 1 else .long 0
  genrand64_int64 := fun r => (draw, r + 1)
  ddtrace_limiter_active := fun _ => active
  ddtrace_limiter_allow := fun l => (allow, l + 1)
  ddtrace_limiter_rate := fun _ => .finite (1 / 2)
  zval_get_long_func := fun _ => 0
  zval_get_double_func := fun _ => .finite 0

/-- A state for examples: every heap cell holds the same span, whose root is
cell `0`, so that cell `0` is a root span; it is the active root span. -/
def sample_state (service : Zval) (metrics meta : HashTable Zval)
    (default_priority propagated_priority : Int) : State Nat Nat where
  spans := fun _ =>
    { service := service, name := .string "web.request", metrics := metrics, meta := meta,
      root := 0 }
  root_span := some 0
  default_priority_sampling := default_priority
  propagated_priority_sampling := propagated_priority
  mt19937 := 0
  limiter := 0

/-- The rule `{service: "payments", sample_rate: 1.0}`. -/
def payments_rule : Zval :=
  .array [("service", .string "payments"), ("sample_rate", .double (.finite 1))]

/-- The rule `{service: "x", sample_rate: 0.5}`. -/
def x_rule : Zval :=
  .array [("service", .string "x"), ("sample_rate", .double (.finite (1 / 2)))]

/-- The rule `{service: "payments", sample_rate: 0.0}`. -/
def zero_rule : Zval :=
  .array [("service", .string "payments"), ("sample_rate", .double (.finite 0))]

/-! # Theorems -/

/-! ## Hash tables -/

theorem find_update_self {V : Type} (ht : HashTable V) (key : String) (v : V) :
    zend_hash_str_find (zend_hash_str_update ht key v) key = some v := by
  induction ht with
  | nil => simp [zend_hash_str_update, zend_hash_str_find]
  | cons kx rest ih =>
    obtain ⟨k, x⟩ := kx
    by_cases h : k = key
    · simp [zend_hash_str_update, zend_hash_str_find, h]
    · simp [zend_hash_str_update, zend_hash_str_find, h, ih]

theorem find_update_ne {V : Type} (ht : HashTable V) (key other : String) (v : V)
    (h : other ≠ key) :
    zend_hash_str_find (zend_hash_str_update ht key v) other = zend_hash_str_find ht other := by
  induction ht with
  | nil => simp [zend_hash_str_update, zend_hash_str_find, Ne.symm h]
  | cons kx rest ih =>
    obtain ⟨k, x⟩ := kx
    by_cases hk : k = key
    · subst hk
      simp [zend_hash_str_update, zend_hash_str_find, Ne.symm h]
    · by_cases ho : k = other
      · subst ho
        simp [zend_hash_str_update, zend_hash_str_find, h]
      · simp [zend_hash_str_update, zend_hash_str_find, hk, ho, ih]

theorem find_del_self {V : Type} (ht : HashTable V) (key : String) :
    zend_hash_str_find (zend_hash_str_del ht key) key = none := by
  induction ht with
  | nil => simp [zend_hash_str_del, zend_hash_str_find]
  | cons kx rest ih =>
    obtain ⟨k, x⟩ := kx
    by_cases h : k = key
    · simp [zend_hash_str_del, h, ih]
    · simp [zend_hash_str_del, zend_hash_str_find, h, ih]

theorem find_del_ne {V : Type} (ht : HashTable V) (key other : String) (h : other ≠ key) :
    zend_hash_str_find (zend_hash_str_del ht key) other = zend_hash_str_find ht other := by
  induction ht with
  | nil => simp [zend_hash_str_del, zend_hash_str_find]
  | cons kx rest ih =>
    obtain ⟨k, x⟩ := kx
    by_cases hk : k = key
    · subst hk
      simp [zend_hash_str_del, zend_hash_str_find, Ne.symm h, ih]
    · by_cases ho : k = other
      · subst ho
        simp [zend_hash_str_del, zend_hash_str_find, h]
      · simp [zend_hash_str_del, zend_hash_str_find, hk, ho, ih]

theorem del_of_find_none {V : Type} (ht : HashTable V) (key : String)
    (h : zend_hash_str_find ht key = none) : zend_hash_str_del ht key = ht := by
  induction ht with
  | nil => simp [zend_hash_str_del]
  | cons kx rest ih =>
    obtain ⟨k, x⟩ := kx
    by_cases hk : k = key
    · simp [zend_hash_str_find, hk] at h
    · simp [zend_hash_str_find, hk] at h
      simp [zend_hash_str_del, hk, ih h]

theorem find_add_new_self {V : Type} (ht : HashTable V) (key : String) (v : V)
    (h : zend_hash_str_find ht key = none) :
    zend_hash_str_find (zend_hash_str_add_new ht key v) key = some v := by
  induction ht with
  | nil => simp [zend_hash_str_add_new, zend_hash_str_find]
  | cons kx rest ih =>
    obtain ⟨k, x⟩ := kx
    by_cases hk : k = key
    · simp [zend_hash_str_find, hk] at h
    · simp [zend_hash_str_find, hk] at h
      have := ih h
      simp [zend_hash_str_add_new] at this
      simp [zend_hash_str_add_new, zend_hash_str_find, hk, this]

theorem find_add_new_ne {V : Type} (ht : HashTable V) (key other : String) (v : V)
    (h : other ≠ key) :
    zend_hash_str_find (zend_hash_str_add_new ht key v) other = zend_hash_str_find ht other := by
  induction ht with
  | nil => simp [zend_hash_str_add_new, zend_hash_str_find, Ne.symm h]
  | cons kx rest ih =>
    obtain ⟨k, x⟩ := kx
    simp [zend_hash_str_add_new] at ih
    by_cases ho : k = other
    · simp [zend_hash_str_add_new, zend_hash_str_find, ho]
    · simp [zend_hash_str_add_new, zend_hash_str_find, ho, ih]

/-! ## States -/

@[simp] theorem set_metrics_spans_self {R L : Type} (st : State R L) (span : Nat)
    (m : HashTable Zval) :
    (st.set_metrics span m).spans span = { st.spans span with metrics := m } := by
  simp [State.set_metrics]

theorem set_metrics_spans_ne {R L : Type} (st : State R L) (span other : Nat)
    (m : HashTable Zval) (h : other ≠ span) :
    (st.set_metrics span m).spans other = st.spans other := by
  simp [State.set_metrics, Function.update_noteq h]

@[simp] theorem set_meta_spans_self {R L : Type} (st : State R L) (span : Nat)
    (m : HashTable Zval) :
    (st.set_meta span m).spans span = { st.spans span with meta := m } := by
  simp [State.set_meta]

theorem set_meta_spans_ne {R L : Type} (st : State R L) (span other : Nat)
    (m : HashTable Zval) (h : other ≠ span) :
    (st.set_meta span m).spans other = st.spans other := by
  simp [State.set_meta, Function.update_noteq h]

theorem set_meta_self {R L : Type} (st : State R L) (span : Nat) :
    st.set_meta span (st.spans span).meta = st := by
  cases st
  simp [State.set_meta]

/-! ## The conversion of a draw to `double` -/

theorem log2_of_bounds {n k : Nat} (h1 : 2 ^ k ≤ n) (h2 : n < 2 ^ (k + 1)) : Nat.log2 n = k := by
  have hn : n ≠ 0 := by
    have : 0 < 2 ^ k := Nat.pos_pow_of_pos k (by decide)
    omega
  have a : k ≤ Nat.log2 n := (Nat.le_log2 hn).2 h1
  have b : Nat.log2 n < k + 1 := (Nat.log2_lt hn).2 h2
  omega

theorem uint64_to_double_top (n : Nat) (h1 : 2 ^ 64 - 1024 ≤ n) (h2 : n < 2 ^ 64) :
    uint64_to_double n = 2 ^ 64 := by
  have hl : Nat.log2 n = 63 := log2_of_bounds (by norm_num at h1 ⊢; omega) (by norm_num at h2 ⊢; omega)
  unfold uint64_to_double
  simp only [hl]
  norm_num at h1 h2 ⊢
  split_ifs <;> omega

theorem uint64_to_double_below (n : Nat) (h : n < 2 ^ 64 - 1024) :
    uint64_to_double n < 2 ^ 64 := by
  unfold uint64_to_double
  by_cases h0 : n < 2 ^ 53
  · simp only [h0, if_true]; norm_num at h0 ⊢; omega
  · simp only [h0, if_false]
    have hn : n ≠ 0 := by norm_num at h0; omega
    have a : 53 ≤ Nat.log2 n := (Nat.le_log2 hn).2 (by omega)
    have b : Nat.log2 n < 64 := (Nat.log2_lt hn).2 (by norm_num at h ⊢; omega)
    have c : 2 ^ Nat.log2 n ≤ n := (Nat.le_log2 hn).1 le_rfl
    have d : n < 2 ^ (Nat.log2 n + 1) := (Nat.log2_lt hn).1 (Nat.lt_succ_self _)
    generalize Nat.log2 n = l at a b c d
    norm_num at h
    interval_cases l <;> norm_num at c d ⊢ <;> split_ifs <;> omega

theorem uint64_to_double_max : uint64_to_double ULLONG_MAX = 2 ^ 64 :=
  uint64_to_double_top ULLONG_MAX (by norm_num [ULLONG_MAX]) (by norm_num [ULLONG_MAX])

theorem cast_two_pow_64 : ((2 ^ 64 : ℕ) : ℚ) = (2 : ℚ) ^ 64 := by
  norm_cast

theorem mul_pow2_one : CDouble.mul_pow2 (.finite 1) (2 ^ 64) = .finite ((2 : ℚ) ^ 64) := by
  have a : (0 : ℚ) < 2 ^ 1024 := by positivity
  have b : (0 : ℚ) < 2 ^ 64 := by positivity
  have c : (2 : ℚ) ^ 64 < 2 ^ 1024 := pow_lt_pow_right₀ (by norm_num) (by norm_num)
  unfold CDouble.mul_pow2
  simp only [cast_two_pow_64, one_mul]
  split_ifs with h1 h2
  · linarith
  · linarith
  · rfl

theorem mul_pow2_zero (k : Nat) : CDouble.mul_pow2 (.finite 0) k = .finite 0 := by
  have a : (0 : ℚ) < 2 ^ 1024 := by positivity
  unfold CDouble.mul_pow2
  simp only [zero_mul]
  split_ifs with h1 h2
  · linarith
  · linarith
  · rfl

/-- At rate `1.0` the sampler keeps exactly the draws below `2^64 - 1024`. -/
theorem sampling_test_rate_one (draw : Nat) :
    dd_sampling_test draw (.finite 1) = decide (draw % 2 ^ 64 < 2 ^ 64 - 1024) := by
  have hlt : draw % 2 ^ 64 < 2 ^ 64 := Nat.mod_lt _ (by norm_num)
  unfold dd_sampling_test
  rw [uint64_to_double_max, mul_pow2_one]
  simp only [CDouble.lt]
  by_cases h : draw % 2 ^ 64 < 2 ^ 64 - 1024
  · have := uint64_to_double_below _ h
    have h' : ((uint64_to_double (draw % 2 ^ 64) : ℕ) : ℚ) < (2 : ℚ) ^ 64 := by exact_mod_cast this
    rw [decide_eq_true h', decide_eq_true h]
  · have := uint64_to_double_top _ (not_lt.mp h) hlt
    rw [this, decide_eq_false h]
    have h' : ¬ (((2 ^ 64 : ℕ) : ℚ) < (2 : ℚ) ^ 64) := by
      rw [cast_two_pow_64]
      exact lt_irrefl _
    rw [decide_eq_false h']

/-- At rate `0.0` the sampler keeps nothing. -/
theorem sampling_test_rate_zero (draw : Nat) :
    dd_sampling_test draw (.finite 0) = false := by
  unfold dd_sampling_test
  rw [mul_pow2_zero]
  simp only [CDouble.lt]
  have h : ¬ (((uint64_to_double (draw % 2 ^ 64) : ℕ) : ℚ) < 0) := by
    rw [not_lt]
    exact Nat.cast_nonneg _
  rw [decide_eq_false h]

/-! ## The tag updater and the decision, taken apart -/

/-- A default priority equal to `UNKNOWN` is still `UNKNOWN` once converted to
`int`. -/
theorem default_unknown_narrows {R L : Type} (env : Env R L) (st : State R L)
    (h : st.default_priority_sampling = env.DDTRACE_PRIORITY_SAMPLING_UNKNOWN) :
    zend_long_to_int st.default_priority_sampling = env.DDTRACE_PRIORITY_SAMPLING_UNKNOWN := by
  rw [h]
  exact env.constants_are_int.1

theorem apply_metrics {R L : Type} (env : Env R L) (st : State R L) (span : Nat)
    (mechanism : dd_sampling_mechanism) (p : Int) (x : Nat) :
    ((dd_update_decision_maker_tag_apply env st span mechanism p).spans x).metrics
      = (st.spans x).metrics := by
  unfold dd_update_decision_maker_tag_apply
  by_cases hx : x = span
  · subst hx
    split_ifs <;> simp
  · split_ifs <;> simp [set_meta_spans_ne _ _ _ _ hx]

theorem apply_root {R L : Type} (env : Env R L) (st : State R L) (span : Nat)
    (mechanism : dd_sampling_mechanism) (p : Int) (x : Nat) :
    ((dd_update_decision_maker_tag_apply env st span mechanism p).spans x).root
      = (st.spans x).root := by
  unfold dd_update_decision_maker_tag_apply
  by_cases hx : x = span
  · subst hx
    split_ifs <;> simp
  · split_ifs <;> simp [set_meta_spans_ne _ _ _ _ hx]

theorem apply_globals {R L : Type} (env : Env R L) (st : State R L) (span : Nat)
    (mechanism : dd_sampling_mechanism) (p : Int) :
    (dd_update_decision_maker_tag_apply env st span mechanism p).mt19937 = st.mt19937 ∧
    (dd_update_decision_maker_tag_apply env st span mechanism p).limiter = st.limiter ∧
    (dd_update_decision_maker_tag_apply env st span mechanism p).root_span = st.root_span ∧
    (dd_update_decision_maker_tag_apply env st span mechanism p).default_priority_sampling
      = st.default_priority_sampling ∧
    (dd_update_decision_maker_tag_apply env st span mechanism p).propagated_priority_sampling
      = st.propagated_priority_sampling := by
  unfold dd_update_decision_maker_tag_apply
  split_ifs <;> simp [State.set_meta]

theorem fetch_found {R L : Type} (env : Env R L) (fuel : Nat) (st : State R L) (span : Nat)
    (z : Zval)
    (h : zend_hash_str_find (st.spans span).metrics "_sampling_priority_v1" = some z) :
    ddtrace_fetch_prioritySampling_from_span env (fuel + 1) st span
      = some (zval_get_long env z, st) := by
  simp [ddtrace_fetch_prioritySampling_from_span, h]

theorem fetch_unset {R L : Type} (env : Env R L) (fuel : Nat) (st : State R L) (span : Nat)
    (h : zend_hash_str_find (st.spans span).metrics "_sampling_priority_v1" = none)
    (hd : st.default_priority_sampling = env.DDTRACE_PRIORITY_SAMPLING_UNSET) :
    ddtrace_fetch_prioritySampling_from_span env (fuel + 1) st span
      = some (env.DDTRACE_PRIORITY_SAMPLING_UNKNOWN, st) := by
  simp [ddtrace_fetch_prioritySampling_from_span, h, hd]

theorem tag_found {R L : Type} (env : Env R L) (fuel : Nat) (st : State R L) (span : Nat)
    (mechanism : dd_sampling_mechanism) (z : Zval)
    (h : zend_hash_str_find (st.spans (st.spans span).root).metrics "_sampling_priority_v1"
      = some z) :
    dd_update_decision_maker_tag env (fuel + 2) st span mechanism
      = some (dd_update_decision_maker_tag_apply env st span mechanism (zval_get_long env z)) := by
  simp [dd_update_decision_maker_tag, fetch_found env fuel st _ z h]

/-- The value of the local `priority` at line 118. -/
theorem store_priority {R L : Type} (env : Env R L) (st : State R L) (span : Nat) :
    ∃ p : Int,
      zend_hash_str_find (((dd_decide_on_sampling_store env st span).1.spans span).metrics)
        "_sampling_priority_v1" = some (.long p) := by
  by_cases hd : zend_long_to_int st.default_priority_sampling = env.DDTRACE_PRIORITY_SAMPLING_UNKNOWN
  · simp only [dd_decide_on_sampling_store, hd, if_true, set_metrics_spans_self,
      find_update_self]
    exact ⟨_, rfl⟩
  · simp only [dd_decide_on_sampling_store, hd, if_false, set_metrics_spans_self,
      find_update_self]
    exact ⟨_, rfl⟩

theorem store_root {R L : Type} (env : Env R L) (st : State R L) (span x : Nat) :
    ((dd_decide_on_sampling_store env st span).1.spans x).root = (st.spans x).root := by
  simp only [dd_decide_on_sampling_store]
  by_cases hx : x = span
  · subst hx
    split_ifs <;> simp
  · split_ifs <;> simp [set_metrics_spans_ne _ _ _ _ hx]

theorem store_meta {R L : Type} (env : Env R L) (st : State R L) (span x : Nat) :
    ((dd_decide_on_sampling_store env st span).1.spans x).meta = (st.spans x).meta := by
  simp only [dd_decide_on_sampling_store]
  by_cases hx : x = span
  · subst hx
    split_ifs <;> simp
  · split_ifs <;> simp [set_metrics_spans_ne _ _ _ _ hx]

theorem store_globals {R L : Type} (env : Env R L) (st : State R L) (span : Nat) :
    (dd_decide_on_sampling_store env st span).1.root_span = st.root_span ∧
    (dd_decide_on_sampling_store env st span).1.default_priority_sampling
      = st.default_priority_sampling ∧
    (dd_decide_on_sampling_store env st span).1.propagated_priority_sampling
      = st.propagated_priority_sampling := by
  simp only [dd_decide_on_sampling_store]
  split_ifs <;> simp [State.set_metrics]

/-- On a span that is its own root the decision runs lines 61-120 once and then
lines 25-37 on the priority just stored. -/
theorem decide_root {R L : Type} (env : Env R L) (fuel : Nat) (st : State R L) (span : Nat)
    (hroot : (st.spans span).root = span) :
    ∃ p : Int,
      zend_hash_str_find (((dd_decide_on_sampling_store env st span).1.spans span).metrics)
        "_sampling_priority_v1" = some (.long p) ∧
      dd_decide_on_sampling env (fuel + 3) st span
        = some (dd_update_decision_maker_tag_apply env (dd_decide_on_sampling_store env st span).1
            span (dd_decide_on_sampling_store env st span).2 p) := by
  obtain ⟨p, hp⟩ := store_priority env st span
  refine ⟨p, hp, ?_⟩
  have hr : ((dd_decide_on_sampling_store env st span).1.spans span).root = span := by
    rw [store_root, hroot]
  have := tag_found env fuel (dd_decide_on_sampling_store env st span).1 span
    (dd_decide_on_sampling_store env st span).2 (.long p) (by rw [hr]; exact hp)
  simpa [dd_decide_on_sampling, zval_get_long] using this

theorem fetch_decide_root {R L : Type} (env : Env R L) (fuel : Nat) (st : State R L) (span : Nat)
    (hroot : (st.spans span).root = span)
    (h : zend_hash_str_find (st.spans span).metrics "_sampling_priority_v1" = none)
    (hd : st.default_priority_sampling ≠ env.DDTRACE_PRIORITY_SAMPLING_UNSET) :
    ∃ p : Int,
      zend_hash_str_find (((dd_decide_on_sampling_store env st span).1.spans span).metrics)
        "_sampling_priority_v1" = some (.long p) ∧
      dd_decide_on_sampling env (fuel + 3) st span
        = some (dd_update_decision_maker_tag_apply env (dd_decide_on_sampling_store env st span).1
            span (dd_decide_on_sampling_store env st span).2 p) ∧
      ddtrace_fetch_prioritySampling_from_span env (fuel + 4) st span
        = some (p, dd_update_decision_maker_tag_apply env
            (dd_decide_on_sampling_store env st span).1 span
            (dd_decide_on_sampling_store env st span).2 p) := by
  obtain ⟨p, hp, hdec⟩ := decide_root env fuel st span hroot
  refine ⟨p, hp, hdec, ?_⟩
  have hm : zend_hash_str_find ((dd_update_decision_maker_tag_apply env
      (dd_decide_on_sampling_store env st span).1 span
      (dd_decide_on_sampling_store env st span).2 p).spans span).metrics
      "_sampling_priority_v1" = some (.long p) := by
    rw [apply_metrics]; exact hp
  rw [ddtrace_fetch_prioritySampling_from_span]
  simp only [h, hd, if_false, hdec, hm, zval_get_long]

/-! ## C1: the priority decided on the probabilistic path -/

/-- C1: on the probabilistic path (process default priority `UNKNOWN`) the
decision on a root span returns, and the value it leaves in the metric
`_sampling_priority_v1` of the root is `USER_KEEP` when the decision is rule
based, sampled and not limited, `USER_REJECT` when it is rule based otherwise,
`AUTO_KEEP` when it is not rule based, sampled and not limited, and
`AUTO_REJECT` otherwise; `sampled` is the sampler's answer for the effective
rate and `limited` holds when the limiter is active, the sampler said keep and
`allow()` answered false. -/
theorem decision_priority_on_probabilistic_path {R L : Type} (env : Env R L) (fuel : Nat)
    (st : State R L) (span : Nat)
    (hroot : (st.spans span).root = span)
    (hdefault : st.default_priority_sampling = env.DDTRACE_PRIORITY_SAMPLING_UNKNOWN) :
    ∃ st' : State R L,
      dd_decide_on_sampling env (fuel + 3) st span = some st' ∧
      zend_hash_str_find (st'.spans span).metrics "_sampling_priority_v1" = some (.long (
        let found := dd_sampling_rules_loop env (st.spans span) env.get_DD_TRACE_SAMPLING_RULES
          (env.get_DD_TRACE_SAMPLE_RATE, decide (env.sample_rate_name_index ≥ 0))
        let rule_based := found.2
        let sampled := dd_sampling_test (env.genrand64_int64 st.mt19937).1 found.1
        let limited := env.ddtrace_limiter_active st.limiter && sampled &&
          !(env.ddtrace_limiter_allow st.limiter).1
        if rule_based && sampled && !limited then env.PRIORITY_SAMPLING_USER_KEEP
        else if rule_based then env.PRIORITY_SAMPLING_USER_REJECT
        else if sampled && !limited then env.PRIORITY_SAMPLING_AUTO_KEEP
        else env.PRIORITY_SAMPLING_AUTO_REJECT)) := by
  have hdefault := default_unknown_narrows env st hdefault
  obtain ⟨p, _, hdec⟩ := decide_root env fuel st span hroot
  refine ⟨_, hdec, ?_⟩
  rw [apply_metrics]
  simp only [dd_decide_on_sampling_store, hdefault, if_true, set_metrics_spans_self,
    find_update_self]
  congr 2
  generalize (dd_sampling_rules_loop env (st.spans span) env.get_DD_TRACE_SAMPLING_RULES
    (env.get_DD_TRACE_SAMPLE_RATE, decide (env.sample_rate_name_index ≥ 0))).2 = rb
  generalize dd_sampling_test (env.genrand64_int64 st.mt19937).1 _ = sm
  generalize env.ddtrace_limiter_active st.limiter = ac
  cases rb <;> cases sm <;> cases ac <;> simp

theorem decision_priority_on_probabilistic_path_witness :
    ((sample_state (.string "payments") [] [] 0x40000000 0x40000001).spans 0).root = 0 ∧
    (sample_state (.string "payments") [] [] 0x40000000 0x40000001).default_priority_sampling
      = (sample_env [payments_rule] (-1) (.finite 1) 7 false true).DDTRACE_PRIORITY_SAMPLING_UNKNOWN ∧
    ∃ st' : State Nat Nat,
      dd_decide_on_sampling (sample_env [payments_rule] (-1) (.finite 1) 7 false true) 3
        (sample_state (.string "payments") [] [] 0x40000000 0x40000001) 0 = some st' ∧
      zend_hash_str_find (st'.spans 0).metrics "_sampling_priority_v1" = some (.long 2) := by
  refine ⟨rfl, rfl, ?_⟩
  obtain ⟨st', h1, h2⟩ := decision_priority_on_probabilistic_path
    (sample_env [payments_rule] (-1) (.finite 1) 7 false true) 0
    (sample_state (.string "payments") [] [] 0x40000000 0x40000001) 0 rfl rfl
  refine ⟨st', h1, ?_⟩
  rw [h2]
  simp [dd_sampling_rules_loop, payments_rule, zend_hash_str_find, dd_rule_matches, sample_env,
    sample_state, zval_get_double, sampling_test_rate_one]

/-! ## C2: the first adopted rule wins -/

/-- One iteration of the loop: the rule is adopted with its rate, or the loop
goes on with the rules that follow. -/
theorem rules_loop_cons {R L : Type} (env : Env R L) (span : ddtrace_span_data) (rule : Zval)
    (rest : List Zval) (acc : CDouble × Bool) :
    dd_sampling_rules_loop env span (rule :: rest) acc =
      match spec_rule_rate env span rule with
      | some rate => (rate, true)
      | none => dd_sampling_rules_loop env span rest acc := by
  cases rule with
  | array ht =>
    simp only [dd_sampling_rules_loop, spec_rule_rate]
    cases hs : zend_hash_str_find ht "service" <;> cases hn : zend_hash_str_find ht "name" <;>
      cases hr : zend_hash_str_find ht "sample_rate" <;> simp <;>
      split_ifs <;> simp_all
  | _ => simp [dd_sampling_rules_loop, spec_rule_rate]

theorem rules_loop_eq_spec {R L : Type} (env : Env R L) (span : ddtrace_span_data)
    (rules : List Zval) (rate : CDouble) (flag : Bool) :
    dd_sampling_rules_loop env span rules (rate, flag)
      = spec_rule_set_evaluator env span rules rate flag := by
  induction rules with
  | nil => simp [dd_sampling_rules_loop, spec_rule_set_evaluator]
  | cons rule rest ih =>
    rw [rules_loop_cons, ih]
    unfold spec_rule_set_evaluator
    cases h : spec_rule_rate env span rule <;> simp [List.findSome?, h]

theorem rules_loop_first_hit {R L : Type} (env : Env R L) (span : ddtrace_span_data)
    (before : List Zval) (rule : Zval) (after : List Zval) (rate : CDouble)
    (acc : CDouble × Bool)
    (hbefore : ∀ b ∈ before, spec_rule_rate env span b = none)
    (hrule : spec_rule_rate env span rule = some rate) :
    dd_sampling_rules_loop env span (before ++ rule :: after) acc = (rate, true) := by
  induction before with
  | nil => simp [rules_loop_cons, hrule]
  | cons b rest ih =>
    have hb := hbefore b (List.mem_cons_self _ _)
    rw [List.cons_append, rules_loop_cons, hb]
    exact ih (fun x hx => hbefore x (List.mem_cons_of_mem _ hx))

theorem rules_loop_no_hit {R L : Type} (env : Env R L) (span : ddtrace_span_data)
    (rules : List Zval) (acc : CDouble × Bool)
    (hnone : ∀ b ∈ rules, spec_rule_rate env span b = none) :
    dd_sampling_rules_loop env span rules acc = acc := by
  induction rules with
  | nil => simp [dd_sampling_rules_loop]
  | cons b rest ih =>
    rw [rules_loop_cons, hnone b (List.mem_cons_self _ _)]
    exact ih (fun x hx => hnone x (List.mem_cons_of_mem _ hx))

/-- The metric `_dd.rule_psr` after lines 61-120 on the probabilistic path. -/
theorem store_rule_psr {R L : Type} (env : Env R L) (st : State R L) (span : Nat)
    (hdefault : zend_long_to_int st.default_priority_sampling = env.DDTRACE_PRIORITY_SAMPLING_UNKNOWN) :
    zend_hash_str_find (((dd_decide_on_sampling_store env st span).1.spans span).metrics)
      "_dd.rule_psr" = some (.double (dd_sampling_rules_loop env (st.spans span)
        env.get_DD_TRACE_SAMPLING_RULES
        (env.get_DD_TRACE_SAMPLE_RATE, decide (env.sample_rate_name_index ≥ 0))).1) := by
  simp only [dd_decide_on_sampling_store, hdefault, if_true, set_metrics_spans_self]
  rw [find_update_ne _ _ _ _ (by decide)]
  split_ifs <;> simp only [set_metrics_spans_self] <;>
    first
    | rw [find_update_self]
    | rw [find_update_ne _ _ _ _ (by decide), find_update_self]

/-- C2: first match wins.  The loop of the decision computes the rule set
evaluator of the specification: when no rule before `rule` is adopted and `rule`
is adopted (it is a rule object, each of its fields `service` and `name` that
is present matches, and it supplies a `sample_rate`), the result is the rate of
`rule` with "rule based" true, whatever rules follow; when no rule is adopted
the result is the default rate with the configured flag.  On a root span, with
the process default priority `UNKNOWN`, the decision returns, records that rate
in `_dd.rule_psr` and draws the priority with that rate and that flag. -/
theorem first_adopted_rule_wins {R L : Type} (env : Env R L) (fuel : Nat) (st : State R L)
    (span : Nat)
    (hroot : (st.spans span).root = span)
    (hdefault : st.default_priority_sampling = env.DDTRACE_PRIORITY_SAMPLING_UNKNOWN) :
    (∀ (sp : ddtrace_span_data) (rules : List Zval) (rate : CDouble) (flag : Bool),
      dd_sampling_rules_loop env sp rules (rate, flag)
        = spec_rule_set_evaluator env sp rules rate flag) ∧
    (∀ (sp : ddtrace_span_data) (before : List Zval) (rule : Zval) (after : List Zval)
        (rate : CDouble) (acc : CDouble × Bool),
      (∀ b ∈ before, spec_rule_rate env sp b = none) →
      spec_rule_rate env sp rule = some rate →
      dd_sampling_rules_loop env sp (before ++ rule :: after) acc = (rate, true)) ∧
    (∀ (sp : ddtrace_span_data) (rules : List Zval) (acc : CDouble × Bool),
      (∀ b ∈ rules, spec_rule_rate env sp b = none) →
      dd_sampling_rules_loop env sp rules acc = acc) ∧
    ∃ st' : State R L,
      dd_decide_on_sampling env (fuel + 3) st span = some st' ∧
      zend_hash_str_find (st'.spans span).metrics "_dd.rule_psr" = some (.double
        (spec_rule_set_evaluator env (st.spans span) env.get_DD_TRACE_SAMPLING_RULES
          env.get_DD_TRACE_SAMPLE_RATE (decide (env.sample_rate_name_index ≥ 0))).1) ∧
      zend_hash_str_find (st'.spans span).metrics "_sampling_priority_v1" = some (.long (
        let effective := spec_rule_set_evaluator env (st.spans span)
          env.get_DD_TRACE_SAMPLING_RULES env.get_DD_TRACE_SAMPLE_RATE
          (decide (env.sample_rate_name_index ≥ 0))
        let sampled := dd_sampling_test (env.genrand64_int64 st.mt19937).1 effective.1
        let limited := env.ddtrace_limiter_active st.limiter && sampled &&
          !(env.ddtrace_limiter_allow st.limiter).1
        if effective.2 then
          (if sampled && !limited then env.PRIORITY_SAMPLING_USER_KEEP
           else env.PRIORITY_SAMPLING_USER_REJECT)
        else
          (if sampled && !limited then env.PRIORITY_SAMPLING_AUTO_KEEP
           else env.PRIORITY_SAMPLING_AUTO_REJECT))) := by
  have hdefault := default_unknown_narrows env st hdefault
  refine ⟨rules_loop_eq_spec env, ?_, ?_, ?_⟩
  · intro sp before rule after rate acc hb hr
    exact rules_loop_first_hit env sp before rule after rate acc hb hr
  · intro sp rules acc hn
    exact rules_loop_no_hit env sp rules acc hn
  · obtain ⟨p, _, hdec⟩ := decide_root env fuel st span hroot
    refine ⟨_, hdec, ?_, ?_⟩
    · rw [apply_metrics, store_rule_psr env st span hdefault, rules_loop_eq_spec]
    · rw [apply_metrics, ← rules_loop_eq_spec]
      simp only [dd_decide_on_sampling_store, hdefault, if_true, set_metrics_spans_self,
        find_update_self]
      congr 2
      generalize (dd_sampling_rules_loop env (st.spans span) env.get_DD_TRACE_SAMPLING_RULES
        (env.get_DD_TRACE_SAMPLE_RATE, decide (env.sample_rate_name_index ≥ 0))).2 = rb
      generalize dd_sampling_test (env.genrand64_int64 st.mt19937).1 _ = sm
      generalize env.ddtrace_limiter_active st.limiter = ac
      cases rb <;> cases sm <;> cases ac <;> simp

theorem first_adopted_rule_wins_witness :
    ((sample_state (.string "payments") [] [] 0x40000000 0x40000001).spans 0).root = 0 ∧
    (sample_state (.string "payments") [] [] 0x40000000 0x40000001).default_priority_sampling
      = (sample_env [x_rule, payments_rule, x_rule] (-1) (.finite (1 / 5)) 7 false
          true).DDTRACE_PRIORITY_SAMPLING_UNKNOWN ∧
    ∃ st' : State Nat Nat,
      dd_decide_on_sampling
        (sample_env [x_rule, payments_rule, x_rule] (-1) (.finite (1 / 5)) 7 false true) 3
        (sample_state (.string "payments") [] [] 0x40000000 0x40000001) 0 = some st' ∧
      zend_hash_str_find (st'.spans 0).metrics "_dd.rule_psr"
        = some (.double (.finite 1)) := by
  refine ⟨rfl, rfl, ?_⟩
  obtain ⟨_, _, _, st', h1, h2, _⟩ := first_adopted_rule_wins
    (sample_env [x_rule, payments_rule, x_rule] (-1) (.finite (1 / 5)) 7 false true) 0
    (sample_state (.string "payments") [] [] 0x40000000 0x40000001) 0 rfl rfl
  refine ⟨st', h1, ?_⟩
  rw [h2]
  simp [spec_rule_set_evaluator, List.findSome?, spec_rule_rate, x_rule, payments_rule,
    zend_hash_str_find, dd_rule_matches, sample_env, sample_state, zval_get_double]

/-! ## C3 and C4: the accessor on a root span -/

theorem store_mt19937 {R L : Type} (env : Env R L) (st : State R L) (span : Nat) :
    (dd_decide_on_sampling_store env st span).1.mt19937 =
      if zend_long_to_int st.default_priority_sampling = env.DDTRACE_PRIORITY_SAMPLING_UNKNOWN then
        (env.genrand64_int64 st.mt19937).2
      else st.mt19937 := by
  simp only [dd_decide_on_sampling_store]
  split_ifs <;> simp [State.set_metrics]

/-- C3: the priority accessor is idempotent on a root span.  The first call
returns a priority and a state; the second call, made in that state, returns the
same priority and leaves the state (heap with the root metrics and meta,
generator state, limiter state, globals) exactly as it found it. -/
theorem fetch_priority_idempotent {R L : Type} (env : Env R L) (fuel : Nat) (st : State R L)
    (span : Nat) (hroot : (st.spans span).root = span) :
    ∃ (p : Int) (st1 : State R L),
      ddtrace_fetch_prioritySampling_from_span env (fuel + 4) st span = some (p, st1) ∧
      ddtrace_fetch_prioritySampling_from_span env (fuel + 4) st1 span = some (p, st1) := by
  cases h : zend_hash_str_find (st.spans span).metrics "_sampling_priority_v1" with
  | some z =>
    exact ⟨_, st, fetch_found env (fuel + 3) st span z h, fetch_found env (fuel + 3) st span z h⟩
  | none =>
    by_cases hd : st.default_priority_sampling = env.DDTRACE_PRIORITY_SAMPLING_UNSET
    · exact ⟨_, st, fetch_unset env (fuel + 3) st span h hd,
        fetch_unset env (fuel + 3) st span h hd⟩
    · obtain ⟨p, hp, _, hfetch⟩ := fetch_decide_root env fuel st span hroot h hd
      refine ⟨p, _, hfetch, ?_⟩
      have := fetch_found env (fuel + 3) (dd_update_decision_maker_tag_apply env
        (dd_decide_on_sampling_store env st span).1 span
        (dd_decide_on_sampling_store env st span).2 p) span (.long p)
        (by rw [apply_metrics]; exact hp)
      simpa [zval_get_long] using this

theorem fetch_priority_idempotent_witness :
    ((sample_state (.string "payments") [] [] 0x40000000 0x40000001).spans 0).root = 0 ∧
    ∃ (p : Int) (st1 : State Nat Nat),
      ddtrace_fetch_prioritySampling_from_span
        (sample_env [payments_rule] (-1) (.finite 1) 7 false true) 4
        (sample_state (.string "payments") [] [] 0x40000000 0x40000001) 0 = some (p, st1) ∧
      ddtrace_fetch_prioritySampling_from_span
        (sample_env [payments_rule] (-1) (.finite 1) 7 false true) 4 st1 0 = some (p, st1) :=
  ⟨rfl, fetch_priority_idempotent (sample_env [payments_rule] (-1) (.finite 1) 7 false true) 0
    (sample_state (.string "payments") [] [] 0x40000000 0x40000001) 0 rfl⟩

/-- C4: the accessor on a root span.  If the metric `_sampling_priority_v1`
exists its value is returned and the state is unchanged; otherwise, if the
process default priority is `UNSET`, `UNKNOWN` is returned and the state is
unchanged; otherwise the decision runs once: the state returned is the one
`dd_decide_on_sampling` returns, it is lines 61-120 run once followed by lines
25-37 of the tag updater applied to the priority just stored (the read of the
priority inside the tag updater decides nothing), the generator has advanced by
one draw on the probabilistic path (the default priority, converted to `int`
at line 61, is `UNKNOWN`) and not at all otherwise, and the value returned is
the one now stored in `_sampling_priority_v1`. -/
theorem fetch_priority_from_root_span {R L : Type} (env : Env R L) (fuel : Nat)
    (st : State R L) (span : Nat) (hroot : (st.spans span).root = span) :
    (∀ z : Zval,
      zend_hash_str_find (st.spans span).metrics "_sampling_priority_v1" = some z →
      ddtrace_fetch_prioritySampling_from_span env (fuel + 4) st span
        = some (zval_get_long env z, st)) ∧
    (zend_hash_str_find (st.spans span).metrics "_sampling_priority_v1" = none →
      st.default_priority_sampling = env.DDTRACE_PRIORITY_SAMPLING_UNSET →
      ddtrace_fetch_prioritySampling_from_span env (fuel + 4) st span
        = some (env.DDTRACE_PRIORITY_SAMPLING_UNKNOWN, st)) ∧
    (zend_hash_str_find (st.spans span).metrics "_sampling_priority_v1" = none →
      st.default_priority_sampling ≠ env.DDTRACE_PRIORITY_SAMPLING_UNSET →
      ∃ (p : Int) (st' : State R L),
        ddtrace_fetch_prioritySampling_from_span env (fuel + 4) st span = some (p, st') ∧
        dd_decide_on_sampling env (fuel + 3) st span = some st' ∧
        st' = dd_update_decision_maker_tag_apply env (dd_decide_on_sampling_store env st span).1
          span (dd_decide_on_sampling_store env st span).2 p ∧
        zend_hash_str_find (st'.spans span).metrics "_sampling_priority_v1" = some (.long p) ∧
        st'.mt19937 =
          (if zend_long_to_int st.default_priority_sampling = env.DDTRACE_PRIORITY_SAMPLING_UNKNOWN then
            (env.genrand64_int64 st.mt19937).2
          else st.mt19937)) := by
  refine ⟨fun z h => fetch_found env (fuel + 3) st span z h,
    fun h hd => fetch_unset env (fuel + 3) st span h hd, ?_⟩
  intro h hd
  obtain ⟨p, hp, hdec, hfetch⟩ := fetch_decide_root env fuel st span hroot h hd
  refine ⟨p, _, hfetch, hdec, rfl, ?_, ?_⟩
  · rw [apply_metrics]; exact hp
  · rw [(apply_globals env _ span _ p).1, store_mt19937]

theorem fetch_priority_from_root_span_witness :
    ((sample_state (.string "payments") [] [] 0x40000000 0x40000001).spans 0).root = 0 ∧
    ∃ (p : Int) (st' : State Nat Nat),
      ddtrace_fetch_prioritySampling_from_span
        (sample_env [payments_rule] (-1) (.finite 1) 7 false true) 4
        (sample_state (.string "payments") [] [] 0x40000000 0x40000001) 0 = some (p, st') ∧
      zend_hash_str_find (st'.spans 0).metrics "_sampling_priority_v1" = some (.long p) ∧
      st'.mt19937 = 1 := by
  refine ⟨rfl, ?_⟩
  obtain ⟨p, st', h1, _, _, h4, h5⟩ := (fetch_priority_from_root_span
    (sample_env [payments_rule] (-1) (.finite 1) 7 false true) 0
    (sample_state (.string "payments") [] [] 0x40000000 0x40000001) 0 rfl).2.2 rfl
    (by decide)
  exact ⟨p, st', h1, h4, by rw [h5]; rfl⟩

/-! ## C5: the contract of the tag updater -/

theorem apply_spans_ne {R L : Type} (env : Env R L) (st : State R L) (span : Nat)
    (mechanism : dd_sampling_mechanism) (p : Int) (x : Nat) (hx : x ≠ span) :
    (dd_update_decision_maker_tag_apply env st span mechanism p).spans x = st.spans x := by
  unfold dd_update_decision_maker_tag_apply
  split_ifs <;> simp [set_meta_spans_ne _ _ _ _ hx]

theorem apply_meta_other_key {R L : Type} (env : Env R L) (st : State R L) (span : Nat)
    (mechanism : dd_sampling_mechanism) (p : Int) (key : String) (hkey : key ≠ "_dd.p.dm") :
    zend_hash_str_find ((dd_update_decision_maker_tag_apply env st span mechanism p).spans
      span).meta key = zend_hash_str_find (st.spans span).meta key := by
  unfold dd_update_decision_maker_tag_apply
  split_ifs <;> simp [find_add_new_ne _ _ _ _ hkey, find_del_ne _ _ _ hkey]

theorem apply_same_priority {R L : Type} (env : Env R L) (st : State R L) (span : Nat)
    (mechanism : dd_sampling_mechanism) (p : Int) (h : st.propagated_priority_sampling = p) :
    dd_update_decision_maker_tag_apply env st span mechanism p = st := by
  simp [dd_update_decision_maker_tag_apply, h]

theorem apply_keep {R L : Type} (env : Env R L) (st : State R L) (span : Nat)
    (mechanism : dd_sampling_mechanism) (p : Int) (h : st.propagated_priority_sampling ≠ p)
    (hkeep : p > 0 ∧ p ≠ env.DDTRACE_PRIORITY_SAMPLING_UNSET) :
    zend_hash_str_find ((dd_update_decision_maker_tag_apply env st span mechanism p).spans
      span).meta "_dd.p.dm" =
      match zend_hash_str_find (st.spans span).meta "_dd.p.dm" with
      | some tag => some tag
      | none => some (.string ("-" ++ toString mechanism.code)) := by
  unfold dd_update_decision_maker_tag_apply
  rw [if_neg h, if_pos hkeep]
  cases hfind : zend_hash_str_find (st.spans span).meta "_dd.p.dm" with
  | some tag => simp [zend_hash_str_exists, hfind]
  | none => simp [zend_hash_str_exists, hfind, find_add_new_self]

theorem apply_not_keep {R L : Type} (env : Env R L) (st : State R L) (span : Nat)
    (mechanism : dd_sampling_mechanism) (p : Int) (h : st.propagated_priority_sampling ≠ p)
    (hkeep : ¬ (p > 0 ∧ p ≠ env.DDTRACE_PRIORITY_SAMPLING_UNSET)) :
    zend_hash_str_find ((dd_update_decision_maker_tag_apply env st span mechanism p).spans
      span).meta "_dd.p.dm" = none := by
  unfold dd_update_decision_maker_tag_apply
  rw [if_neg h, if_neg hkeep]
  simp [find_del_self]

theorem apply_span_rest {R L : Type} (env : Env R L) (st : State R L) (span : Nat)
    (mechanism : dd_sampling_mechanism) (p : Int) (x : Nat) :
    ((dd_update_decision_maker_tag_apply env st span mechanism p).spans x).service
      = (st.spans x).service ∧
    ((dd_update_decision_maker_tag_apply env st span mechanism p).spans x).name
      = (st.spans x).name := by
  unfold dd_update_decision_maker_tag_apply
  by_cases hx : x = span
  · subst hx
    split_ifs <;> simp
  · split_ifs <;> simp [set_meta_spans_ne _ _ _ _ hx]

theorem tag_of_read {R L : Type} (env : Env R L) (fuel : Nat) (st st1 : State R L) (span : Nat)
    (mechanism : dd_sampling_mechanism) (p : Int)
    (hread : ddtrace_fetch_prioritySampling_from_span env fuel st (st.spans span).root
      = some (p, st1)) :
    dd_update_decision_maker_tag env (fuel + 1) st span mechanism
      = some (dd_update_decision_maker_tag_apply env st1 span mechanism p) := by
  simp [dd_update_decision_maker_tag, hread]

/-- The priority that lines 61-120 store is not `UNKNOWN`, provided the four
priorities of the probabilistic path are not. -/
theorem store_priority_ne_unknown {R L : Type} (env : Env R L) (st : State R L) (span : Nat)
    (q : Int)
    (hAK : env.PRIORITY_SAMPLING_AUTO_KEEP ≠ env.DDTRACE_PRIORITY_SAMPLING_UNKNOWN)
    (hAR : env.PRIORITY_SAMPLING_AUTO_REJECT ≠ env.DDTRACE_PRIORITY_SAMPLING_UNKNOWN)
    (hUK : env.PRIORITY_SAMPLING_USER_KEEP ≠ env.DDTRACE_PRIORITY_SAMPLING_UNKNOWN)
    (hUR : env.PRIORITY_SAMPLING_USER_REJECT ≠ env.DDTRACE_PRIORITY_SAMPLING_UNKNOWN)
    (hq : zend_hash_str_find (((dd_decide_on_sampling_store env st span).1.spans span).metrics)
      "_sampling_priority_v1" = some (.long q)) :
    q ≠ env.DDTRACE_PRIORITY_SAMPLING_UNKNOWN := by
  by_cases hd : zend_long_to_int st.default_priority_sampling
      = env.DDTRACE_PRIORITY_SAMPLING_UNKNOWN
  · simp only [dd_decide_on_sampling_store, hd, if_true, set_metrics_spans_self,
      find_update_self, Option.some.injEq, Zval.long.injEq] at hq
    rw [← hq]
    split_ifs <;> assumption
  · simp only [dd_decide_on_sampling_store, hd, if_false, set_metrics_spans_self,
      find_update_self, Option.some.injEq, Zval.long.injEq] at hq
    rw [← hq]
    exact hd

/-- The two call sites of the tag updater.  At line 122 the span, a root span,
stores the priority just written at line 119, and it is not `UNKNOWN` (the four
priorities of the probabilistic path are taken to differ from `UNKNOWN`); at
line 166 the root span stores the priority written at line 164, which line 159
has found different from `UNKNOWN`. -/
theorem tag_updater_call_sites {R L : Type} (env : Env R L) (st : State R L) (span : Nat)
    (hroot : (st.spans span).root = span) :
    ((env.PRIORITY_SAMPLING_AUTO_KEEP ≠ env.DDTRACE_PRIORITY_SAMPLING_UNKNOWN ∧
        env.PRIORITY_SAMPLING_AUTO_REJECT ≠ env.DDTRACE_PRIORITY_SAMPLING_UNKNOWN ∧
        env.PRIORITY_SAMPLING_USER_KEEP ≠ env.DDTRACE_PRIORITY_SAMPLING_UNKNOWN ∧
        env.PRIORITY_SAMPLING_USER_REJECT ≠ env.DDTRACE_PRIORITY_SAMPLING_UNKNOWN) →
      ∃ q : Int,
        zend_hash_str_find
          ((dd_decide_on_sampling_store env st span).1.spans
            ((dd_decide_on_sampling_store env st span).1.spans span).root).metrics
          "_sampling_priority_v1" = some (.long q) ∧
        zval_get_long env (.long q) ≠ env.DDTRACE_PRIORITY_SAMPLING_UNKNOWN) ∧
    (∀ priority : Int, priority ≠ env.DDTRACE_PRIORITY_SAMPLING_UNKNOWN →
      zend_hash_str_find
        ((st.set_metrics span (zend_hash_str_update (st.spans span).metrics
            "_sampling_priority_v1" (.long priority))).spans
          ((st.set_metrics span (zend_hash_str_update (st.spans span).metrics
            "_sampling_priority_v1" (.long priority))).spans span).root).metrics
        "_sampling_priority_v1" = some (.long priority) ∧
      zval_get_long env (.long priority) ≠ env.DDTRACE_PRIORITY_SAMPLING_UNKNOWN) := by
  constructor
  · rintro ⟨hAK, hAR, hUK, hUR⟩
    obtain ⟨q, hq⟩ := store_priority env st span
    refine ⟨q, ?_, store_priority_ne_unknown env st span q hAK hAR hUK hUR hq⟩
    rw [store_root, hroot]
    exact hq
  · intro priority hp
    refine ⟨?_, hp⟩
    simp [hroot, find_update_self]

/-- C5: the contract of the tag updater, for every state in which it is called:
the root of the span stores a priority (lines 119 and 164 have just written it)
and that priority is not `UNKNOWN`.  The updater returns; its read of the
trace's current priority returns the stored priority `p` and leaves the state
as it is.  If `p` equals the propagated priority nothing changes; otherwise, if
`p` is positive and neither `UNSET` nor `UNKNOWN`, `_dd.p.dm` is present
afterwards, with its previous value if it was present and with
`"-<mechanism code>"` if it was absent; otherwise `_dd.p.dm` is absent
afterwards.  No other meta key changes, and nothing but the meta of the span
changes. -/
theorem tag_updater_contract {R L : Type} (env : Env R L) (fuel : Nat) (st : State R L)
    (span : Nat) (mechanism : dd_sampling_mechanism) (z : Zval)
    (hstored : zend_hash_str_find (st.spans (st.spans span).root).metrics
      "_sampling_priority_v1" = some z)
    (hknown : zval_get_long env z ≠ env.DDTRACE_PRIORITY_SAMPLING_UNKNOWN) :
    ∃ st' : State R L,
      dd_update_decision_maker_tag env (fuel + 2) st span mechanism = some st' ∧
      ddtrace_fetch_prioritySampling_from_span env (fuel + 1) st (st.spans span).root
        = some (zval_get_long env z, st) ∧
      (st.propagated_priority_sampling = zval_get_long env z → st' = st) ∧
      (st.propagated_priority_sampling ≠ zval_get_long env z →
        (zval_get_long env z > 0 ∧
          zval_get_long env z ≠ env.DDTRACE_PRIORITY_SAMPLING_UNSET ∧
          zval_get_long env z ≠ env.DDTRACE_PRIORITY_SAMPLING_UNKNOWN) →
        zend_hash_str_find (st'.spans span).meta "_dd.p.dm" =
          match zend_hash_str_find (st.spans span).meta "_dd.p.dm" with
          | some tag => some tag
          | none => some (.string ("-" ++ toString mechanism.code))) ∧
      (st.propagated_priority_sampling ≠ zval_get_long env z →
        ¬ (zval_get_long env z > 0 ∧
          zval_get_long env z ≠ env.DDTRACE_PRIORITY_SAMPLING_UNSET ∧
          zval_get_long env z ≠ env.DDTRACE_PRIORITY_SAMPLING_UNKNOWN) →
        zend_hash_str_find (st'.spans span).meta "_dd.p.dm" = none) ∧
      (∀ key : String, key ≠ "_dd.p.dm" →
        zend_hash_str_find (st'.spans span).meta key
          = zend_hash_str_find (st.spans span).meta key) ∧
      (∀ x : Nat, x ≠ span → st'.spans x = st.spans x) ∧
      (st'.spans span).metrics = (st.spans span).metrics ∧
      (st'.spans span).service = (st.spans span).service ∧
      (st'.spans span).name = (st.spans span).name ∧
      (st'.spans span).root = (st.spans span).root ∧
      st'.mt19937 = st.mt19937 ∧ st'.limiter = st.limiter ∧
      st'.root_span = st.root_span ∧
      st'.default_priority_sampling = st.default_priority_sampling ∧
      st'.propagated_priority_sampling = st.propagated_priority_sampling := by
  have hread := fetch_found env fuel st (st.spans span).root z hstored
  refine ⟨_, tag_of_read env (fuel + 1) st st span mechanism _ hread, hread,
    apply_same_priority env st span mechanism _, ?_, ?_,
    apply_meta_other_key env st span mechanism _,
    apply_spans_ne env st span mechanism _,
    apply_metrics env st span mechanism _ span,
    (apply_span_rest env st span mechanism _ span).1,
    (apply_span_rest env st span mechanism _ span).2,
    apply_root env st span mechanism _ span,
    (apply_globals env st span mechanism _).1,
    (apply_globals env st span mechanism _).2.1,
    (apply_globals env st span mechanism _).2.2.1,
    (apply_globals env st span mechanism _).2.2.2.1,
    (apply_globals env st span mechanism _).2.2.2.2⟩
  · intro hne hkeep
    exact apply_keep env st span mechanism _ hne ⟨hkeep.1, hkeep.2.1⟩
  · intro hne hkeep
    exact apply_not_keep env st span mechanism _ hne
      (fun h => hkeep ⟨h.1, h.2, hknown⟩)

theorem tag_updater_contract_witness :
    zend_hash_str_find
      ((sample_state .null [("_sampling_priority_v1", .long 2)] [] 0x40000000
        0x40000001).spans
        ((sample_state .null [("_sampling_priority_v1", .long 2)] [] 0x40000000
          0x40000001).spans 0).root).metrics
      "_sampling_priority_v1" = some (.long 2) ∧
    zval_get_long (sample_env [] (-1) (.finite 1) 7 false true) (.long 2)
      ≠ (sample_env [] (-1) (.finite 1) 7 false true).DDTRACE_PRIORITY_SAMPLING_UNKNOWN ∧
    ∃ st' : State Nat Nat,
      dd_update_decision_maker_tag (sample_env [] (-1) (.finite 1) 7 false true) 2
        (sample_state .null [("_sampling_priority_v1", .long 2)] [] 0x40000000 0x40000001) 0
        dd_sampling_mechanism.DD_MECHANISM_RULE = some st' ∧
      zend_hash_str_find (st'.spans 0).meta "_dd.p.dm" = some (.string "-3") := by
  have hknown : zval_get_long (sample_env [] (-1) (.finite 1) 7 false true) (.long 2)
      ≠ (sample_env [] (-1) (.finite 1) 7 false true).DDTRACE_PRIORITY_SAMPLING_UNKNOWN := by
    decide
  obtain ⟨st', h1, _, _, h4, _⟩ := tag_updater_contract
    (sample_env [] (-1) (.finite 1) 7 false true) 0
    (sample_state .null [("_sampling_priority_v1", .long 2)] [] 0x40000000 0x40000001) 0
    dd_sampling_mechanism.DD_MECHANISM_RULE (.long 2) rfl hknown
  refine ⟨rfl, hknown, st', h1, ?_⟩
  rw [h4 (by decide) ⟨by decide, by decide, by decide⟩]
  rfl

/-! ## C6: the decision-maker tag along sequences of accessor calls -/

theorem decide_root_small {R L : Type} (env : Env R L) (fuel : Nat) (st : State R L)
    (span : Nat) (hfuel : fuel < 3) : dd_decide_on_sampling env fuel st span = none := by
  match fuel, hfuel with
  | 0, _ => simp [dd_decide_on_sampling]
  | 1, _ => simp [dd_decide_on_sampling, dd_update_decision_maker_tag]
  | 2, _ =>
    simp [dd_decide_on_sampling, dd_update_decision_maker_tag,
      ddtrace_fetch_prioritySampling_from_span]

/-- What a returning call of the accessor on a root span has done. -/
theorem fetch_root_cases {R L : Type} (env : Env R L) (fuel : Nat) (st st' : State R L)
    (span : Nat) (p : Int) (hroot : (st.spans span).root = span)
    (h : ddtrace_fetch_prioritySampling_from_span env fuel st span = some (p, st')) :
    st' = st ∨
    (zend_hash_str_find (st.spans span).metrics "_sampling_priority_v1" = none ∧
      st.default_priority_sampling ≠ env.DDTRACE_PRIORITY_SAMPLING_UNSET ∧
      ∃ q : Int,
        zend_hash_str_find (((dd_decide_on_sampling_store env st span).1.spans span).metrics)
          "_sampling_priority_v1" = some (.long q) ∧
        st' = dd_update_decision_maker_tag_apply env (dd_decide_on_sampling_store env st span).1
          span (dd_decide_on_sampling_store env st span).2 q) := by
  cases fuel with
  | zero => simp [ddtrace_fetch_prioritySampling_from_span] at h
  | succ n =>
    cases hfind : zend_hash_str_find (st.spans span).metrics "_sampling_priority_v1" with
    | some z =>
      rw [fetch_found env n st span z hfind] at h
      simp only [Option.some.injEq, Prod.mk.injEq] at h
      exact Or.inl h.2.symm
    | none =>
      by_cases hd : st.default_priority_sampling = env.DDTRACE_PRIORITY_SAMPLING_UNSET
      · rw [fetch_unset env n st span hfind hd] at h
        simp only [Option.some.injEq, Prod.mk.injEq] at h
        exact Or.inl h.2.symm
      · refine Or.inr ⟨rfl, hd, ?_⟩
        by_cases hn : n < 3
        · have := decide_root_small env n st span hn
          simp [ddtrace_fetch_prioritySampling_from_span, hfind, hd, this] at h
        · obtain ⟨m, rfl⟩ : ∃ m, n = m + 3 := ⟨n - 3, by omega⟩
          obtain ⟨q, hq, _, hfetch⟩ := fetch_decide_root env m st span hroot hfind hd
          rw [hfetch] at h
          simp only [Option.some.injEq, Prod.mk.injEq] at h
          exact ⟨q, hq, h.2.symm⟩

/-- What a returning call of the mutator has done. -/
theorem set_root_cases {R L : Type} (env : Env R L) (fuel : Nat) (st st' : State R L)
    (span : Nat) (priority : Int) (hactive : st.root_span = some span)
    (hroot : (st.spans span).root = span)
    (h : ddtrace_set_prioritySampling_on_root env fuel st priority = some st') :
    st' = st.set_metrics span
      (zend_hash_str_del (st.spans span).metrics "_sampling_priority_v1") ∨
    (priority ≠ env.DDTRACE_PRIORITY_SAMPLING_UNKNOWN ∧
      priority ≠ env.DDTRACE_PRIORITY_SAMPLING_UNSET ∧
      st' = dd_update_decision_maker_tag_apply env
        (st.set_metrics span (zend_hash_str_update (st.spans span).metrics
          "_sampling_priority_v1" (.long priority)))
        span dd_sampling_mechanism.DD_MECHANISM_MANUAL priority) := by
  unfold ddtrace_set_prioritySampling_on_root at h
  simp only [hactive] at h
  by_cases hp : priority = env.DDTRACE_PRIORITY_SAMPLING_UNKNOWN ∨
      priority = env.DDTRACE_PRIORITY_SAMPLING_UNSET
  · rw [if_pos hp] at h
    simp only [Option.some.injEq] at h
    exact Or.inl h.symm
  · rw [if_neg hp] at h
    push_neg at hp
    refine Or.inr ⟨hp.1, hp.2, ?_⟩
    match fuel, h with
    | 0, h => simp [dd_update_decision_maker_tag] at h
    | 1, h =>
      simp [dd_update_decision_maker_tag, ddtrace_fetch_prioritySampling_from_span] at h
    | n + 2, h =>
      rw [tag_found env n _ span _ (.long priority)
        (by simp [hroot, find_update_self])] at h
      simp only [Option.some.injEq] at h
      simpa [zval_get_long] using h.symm

theorem apply_tag_iff {R L : Type} (env : Env R L) (st : State R L) (span : Nat)
    (mechanism : dd_sampling_mechanism) (p : Int) (h : st.propagated_priority_sampling ≠ p) :
    (zend_hash_str_find ((dd_update_decision_maker_tag_apply env st span mechanism p).spans
      span).meta "_dd.p.dm").isSome = true ↔
      (p > 0 ∧ p ≠ env.DDTRACE_PRIORITY_SAMPLING_UNSET) := by
  by_cases hkeep : p > 0 ∧ p ≠ env.DDTRACE_PRIORITY_SAMPLING_UNSET
  · rw [apply_keep env st span mechanism p h hkeep]
    cases zend_hash_str_find (st.spans span).meta "_dd.p.dm" <;> simp [hkeep]
  · rw [apply_not_keep env st span mechanism p h hkeep]
    simp [hkeep]

/-- The invariant behind C6: the span is the active root span and its own
root, and a stored priority is not `UNKNOWN` and, when it differs from the
propagated priority, is accompanied by the tag exactly when it is positive
and not `UNSET`. -/
theorem tag_invariant_step {R L : Type} (env : Env R L) (span : Nat) (st st' : State R L)
    (hAK : env.PRIORITY_SAMPLING_AUTO_KEEP ≠ env.DDTRACE_PRIORITY_SAMPLING_UNKNOWN)
    (hAR : env.PRIORITY_SAMPLING_AUTO_REJECT ≠ env.DDTRACE_PRIORITY_SAMPLING_UNKNOWN)
    (hUK : env.PRIORITY_SAMPLING_USER_KEEP ≠ env.DDTRACE_PRIORITY_SAMPLING_UNKNOWN)
    (hUR : env.PRIORITY_SAMPLING_USER_REJECT ≠ env.DDTRACE_PRIORITY_SAMPLING_UNKNOWN)
    (hstep : accessor_step env st st')
    (hinv : st.root_span = some span ∧ (st.spans span).root = span ∧
      ∀ z : Zval,
        zend_hash_str_find (st.spans span).metrics "_sampling_priority_v1" = some z →
        zval_get_long env z ≠ env.DDTRACE_PRIORITY_SAMPLING_UNKNOWN ∧
        (zval_get_long env z ≠ st.propagated_priority_sampling →
          ((zend_hash_str_find (st.spans span).meta "_dd.p.dm").isSome = true ↔
            (zval_get_long env z > 0 ∧
              zval_get_long env z ≠ env.DDTRACE_PRIORITY_SAMPLING_UNSET)))) :
    st'.root_span = some span ∧ (st'.spans span).root = span ∧
      ∀ z : Zval,
        zend_hash_str_find (st'.spans span).metrics "_sampling_priority_v1" = some z →
        zval_get_long env z ≠ env.DDTRACE_PRIORITY_SAMPLING_UNKNOWN ∧
        (zval_get_long env z ≠ st'.propagated_priority_sampling →
          ((zend_hash_str_find (st'.spans span).meta "_dd.p.dm").isSome = true ↔
            (zval_get_long env z > 0 ∧
              zval_get_long env z ≠ env.DDTRACE_PRIORITY_SAMPLING_UNSET))) := by
  obtain ⟨hactive, hroot, hmet⟩ := hinv
  -- the state after a decision or an override: lines 25-37 applied to a state that stores `q`
  have happly : ∀ (s1 : State R L) (mechanism : dd_sampling_mechanism) (q : Int),
      s1.root_span = some span → (s1.spans span).root = span →
      zend_hash_str_find (s1.spans span).metrics "_sampling_priority_v1" = some (.long q) →
      q ≠ env.DDTRACE_PRIORITY_SAMPLING_UNKNOWN →
      st' = dd_update_decision_maker_tag_apply env s1 span mechanism q →
      st'.root_span = some span ∧ (st'.spans span).root = span ∧
      ∀ z : Zval,
        zend_hash_str_find (st'.spans span).metrics "_sampling_priority_v1" = some z →
        zval_get_long env z ≠ env.DDTRACE_PRIORITY_SAMPLING_UNKNOWN ∧
        (zval_get_long env z ≠ st'.propagated_priority_sampling →
          ((zend_hash_str_find (st'.spans span).meta "_dd.p.dm").isSome = true ↔
            (zval_get_long env z > 0 ∧
              zval_get_long env z ≠ env.DDTRACE_PRIORITY_SAMPLING_UNSET))) := by
    intro s1 mechanism q ha hr hq hne hst
    subst hst
    refine ⟨by rw [(apply_globals env s1 span mechanism q).2.2.1]; exact ha,
      by rw [apply_root]; exact hr, ?_⟩
    intro z hz
    rw [apply_metrics, hq] at hz
    simp only [Option.some.injEq] at hz
    subst hz
    simp only [zval_get_long]
    refine ⟨hne, fun hprop => ?_⟩
    rw [(apply_globals env s1 span mechanism q).2.2.2.2] at hprop
    exact apply_tag_iff env s1 span mechanism q (Ne.symm hprop)
  have hfetch : ∀ (fuel : Nat) (p : Int),
      ddtrace_fetch_prioritySampling_from_span env fuel st span = some (p, st') →
      st'.root_span = some span ∧ (st'.spans span).root = span ∧
      ∀ z : Zval,
        zend_hash_str_find (st'.spans span).metrics "_sampling_priority_v1" = some z →
        zval_get_long env z ≠ env.DDTRACE_PRIORITY_SAMPLING_UNKNOWN ∧
        (zval_get_long env z ≠ st'.propagated_priority_sampling →
          ((zend_hash_str_find (st'.spans span).meta "_dd.p.dm").isSome = true ↔
            (zval_get_long env z > 0 ∧
              zval_get_long env z ≠ env.DDTRACE_PRIORITY_SAMPLING_UNSET))) := by
    intro fuel p h
    rcases fetch_root_cases env fuel st st' span p hroot h with heq | ⟨_, _, q, hq, hst⟩
    · subst heq
      exact ⟨hactive, hroot, hmet⟩
    · exact happly (dd_decide_on_sampling_store env st span).1
        (dd_decide_on_sampling_store env st span).2 q
        (by rw [(store_globals env st span).1]; exact hactive)
        (by rw [store_root]; exact hroot) hq
        (store_priority_ne_unknown env st span q hAK hAR hUK hUR hq) hst
  cases hstep with
  | get_from_root fuel _ _ root_span p ha h =>
    rw [hactive] at ha
    simp only [Option.some.injEq] at ha
    subst ha
    exact hfetch fuel p h
  | get_from_active_trace fuel _ _ p h =>
    unfold ddtrace_fetch_prioritySampling_from_root at h
    simp only [hactive] at h
    exact hfetch fuel p h
  | set_on_active_trace fuel _ _ priority h =>
    rcases set_root_cases env fuel st st' span priority hactive hroot h with
      heq | ⟨hp1, _, hst⟩
    · subst heq
      refine ⟨hactive, by simpa using hroot, ?_⟩
      intro z hz
      simp [find_del_self] at hz
    · exact happly (st.set_metrics span (zend_hash_str_update (st.spans span).metrics
          "_sampling_priority_v1" (.long priority)))
        dd_sampling_mechanism.DD_MECHANISM_MANUAL priority hactive
        (by simpa using hroot) (by simp [find_update_self]) hp1 hst

/-- C6 as the claim states it fails on this input: the process default and the
propagated priority are both `2` (`USER_KEEP`, an inherited decision) and the
root span is fresh.  One call of `get_from_root` stores the priority `2`, which
is positive and neither `UNSET` nor `UNKNOWN`, and the tag updater, finding it
equal to the propagated priority, writes no tag: `_dd.p.dm` is absent. -/
theorem tag_invariant_inherited_counterexample :
    ∃ st' : State Nat Nat,
      fresh_root_span (sample_state .null [] [] 2 2) 0 ∧
      Relation.ReflTransGen (accessor_step (sample_env [] (-1) (.finite 1) 7 false true))
        (sample_state .null [] [] 2 2) st' ∧
      ddtrace_fetch_prioritySampling_from_span (sample_env [] (-1) (.finite 1) 7 false true) 4
        (sample_state .null [] [] 2 2) 0 = some (2, st') ∧
      zend_hash_str_find (st'.spans 0).metrics "_sampling_priority_v1" = some (.long 2) ∧
      ((2 : Int) > 0 ∧
        (2 : Int) ≠ (sample_env [] (-1) (.finite 1) 7 false true).DDTRACE_PRIORITY_SAMPLING_UNSET ∧
        (2 : Int) ≠
          (sample_env [] (-1) (.finite 1) 7 false true).DDTRACE_PRIORITY_SAMPLING_UNKNOWN) ∧
      zend_hash_str_find (st'.spans 0).meta "_dd.p.dm" = none := by
  obtain ⟨p, hp, _, hfetch⟩ := fetch_decide_root (sample_env [] (-1) (.finite 1) 7 false true) 0
    (sample_state .null [] [] 2 2) 0 rfl rfl (by decide)
  have hp2 : p = 2 := by
    have hstore : zend_hash_str_find (((dd_decide_on_sampling_store
        (sample_env [] (-1) (.finite 1) 7 false true) (sample_state .null [] [] 2 2) 0).1.spans
        0).metrics) "_sampling_priority_v1" = some (.long 2) := by
      have hint : zend_long_to_int 2 = 2 := by decide
      simp [dd_decide_on_sampling_store, sample_state, sample_env, find_update_self, hint]
    rw [hstore] at hp
    simp only [Option.some.injEq, Zval.long.injEq] at hp
    exact hp.symm
  subst hp2
  rw [apply_same_priority _ _ _ _ _ (by
    rw [(store_globals _ _ _).2.2]; rfl)] at hfetch
  refine ⟨_, ⟨rfl, rfl, rfl, rfl⟩,
    Relation.ReflTransGen.single (accessor_step.get_from_root 4 _ _ 0 2 rfl hfetch),
    hfetch, hp, ⟨by decide, by decide, by decide⟩, ?_⟩
  rw [store_meta]
  rfl

/-- C6, amended: in every state reachable from a fresh root span by calls of
`get_from_root`, `get_from_active_trace` and `set_on_active_trace` (each of
which ends with the run of the tag updater, if it runs it), whenever the root
span stores a priority and that priority differs from the propagated priority,
`_dd.p.dm` exists if and only if the stored priority is positive and different
from `UNSET` and `UNKNOWN`.  The four priorities of the probabilistic path are
taken to differ from `UNKNOWN`. -/
theorem tag_invariant_reachable {R L : Type} (env : Env R L) (span : Nat) (st0 st : State R L)
    (hAK : env.PRIORITY_SAMPLING_AUTO_KEEP ≠ env.DDTRACE_PRIORITY_SAMPLING_UNKNOWN)
    (hAR : env.PRIORITY_SAMPLING_AUTO_REJECT ≠ env.DDTRACE_PRIORITY_SAMPLING_UNKNOWN)
    (hUK : env.PRIORITY_SAMPLING_USER_KEEP ≠ env.DDTRACE_PRIORITY_SAMPLING_UNKNOWN)
    (hUR : env.PRIORITY_SAMPLING_USER_REJECT ≠ env.DDTRACE_PRIORITY_SAMPLING_UNKNOWN)
    (hfresh : fresh_root_span st0 span)
    (hreach : Relation.ReflTransGen (accessor_step env) st0 st) :
    ∀ z : Zval,
      zend_hash_str_find (st.spans span).metrics "_sampling_priority_v1" = some z →
      zval_get_long env z ≠ st.propagated_priority_sampling →
      ((zend_hash_str_find (st.spans span).meta "_dd.p.dm").isSome = true ↔
        (zval_get_long env z > 0 ∧
          zval_get_long env z ≠ env.DDTRACE_PRIORITY_SAMPLING_UNSET ∧
          zval_get_long env z ≠ env.DDTRACE_PRIORITY_SAMPLING_UNKNOWN)) := by
  have hinv : st.root_span = some span ∧ (st.spans span).root = span ∧
      ∀ z : Zval,
        zend_hash_str_find (st.spans span).metrics "_sampling_priority_v1" = some z →
        zval_get_long env z ≠ env.DDTRACE_PRIORITY_SAMPLING_UNKNOWN ∧
        (zval_get_long env z ≠ st.propagated_priority_sampling →
          ((zend_hash_str_find (st.spans span).meta "_dd.p.dm").isSome = true ↔
            (zval_get_long env z > 0 ∧
              zval_get_long env z ≠ env.DDTRACE_PRIORITY_SAMPLING_UNSET))) := by
    induction hreach with
    | refl =>
      obtain ⟨ha, hr, hm, _⟩ := hfresh
      refine ⟨ha, hr, fun z hz => ?_⟩
      rw [hm] at hz
      simp at hz
    | tail _ hstep ih => exact tag_invariant_step env span _ _ hAK hAR hUK hUR hstep ih
  intro z hz hne
  obtain ⟨hunk, hiff⟩ := hinv.2.2 z hz
  rw [hiff hne]
  exact ⟨fun h => ⟨h.1, h.2, hunk⟩, fun h => ⟨h.1, h.2.1⟩⟩

theorem tag_invariant_reachable_witness :
    (sample_env [] (-1) (.finite 1) 7 false true).PRIORITY_SAMPLING_AUTO_KEEP
      ≠ (sample_env [] (-1) (.finite 1) 7 false true).DDTRACE_PRIORITY_SAMPLING_UNKNOWN ∧
    (sample_env [] (-1) (.finite 1) 7 false true).PRIORITY_SAMPLING_AUTO_REJECT
      ≠ (sample_env [] (-1) (.finite 1) 7 false true).DDTRACE_PRIORITY_SAMPLING_UNKNOWN ∧
    (sample_env [] (-1) (.finite 1) 7 false true).PRIORITY_SAMPLING_USER_KEEP
      ≠ (sample_env [] (-1) (.finite 1) 7 false true).DDTRACE_PRIORITY_SAMPLING_UNKNOWN ∧
    (sample_env [] (-1) (.finite 1) 7 false true).PRIORITY_SAMPLING_USER_REJECT
      ≠ (sample_env [] (-1) (.finite 1) 7 false true).DDTRACE_PRIORITY_SAMPLING_UNKNOWN ∧
    fresh_root_span (sample_state .null [] [] 0x40000000 0x40000001) 0 ∧
    ∃ st : State Nat Nat,
      Relation.ReflTransGen (accessor_step (sample_env [] (-1) (.finite 1) 7 false true))
        (sample_state .null [] [] 0x40000000 0x40000001) st ∧
      zend_hash_str_find (st.spans 0).metrics "_sampling_priority_v1" = some (.long 2) ∧
      (zend_hash_str_find (st.spans 0).meta "_dd.p.dm").isSome = true := by
  have hset : ddtrace_set_prioritySampling_on_root (sample_env [] (-1) (.finite 1) 7 false true)
      2 (sample_state .null [] [] 0x40000000 0x40000001) 2
      = some (dd_update_decision_maker_tag_apply (sample_env [] (-1) (.finite 1) 7 false true)
          ((sample_state .null [] [] 0x40000000 0x40000001).set_metrics 0
            (zend_hash_str_update [] "_sampling_priority_v1" (.long 2)))
          0 dd_sampling_mechanism.DD_MECHANISM_MANUAL 2) := by
    have := tag_found (sample_env [] (-1) (.finite 1) 7 false true) 0
      ((sample_state .null [] [] 0x40000000 0x40000001).set_metrics 0
        (zend_hash_str_update [] "_sampling_priority_v1" (.long 2)))
      0 dd_sampling_mechanism.DD_MECHANISM_MANUAL (.long 2) rfl
    simpa [ddtrace_set_prioritySampling_on_root, sample_state, sample_env, zval_get_long]
      using this
  have hreach := Relation.ReflTransGen.single (accessor_step.set_on_active_trace 2 _ _ 2 hset)
  have hstored : zend_hash_str_find ((dd_update_decision_maker_tag_apply
      (sample_env [] (-1) (.finite 1) 7 false true)
      ((sample_state .null [] [] 0x40000000 0x40000001).set_metrics 0
        (zend_hash_str_update [] "_sampling_priority_v1" (.long 2)))
      0 dd_sampling_mechanism.DD_MECHANISM_MANUAL 2).spans 0).metrics
      "_sampling_priority_v1" = some (.long 2) := by
    rw [apply_metrics]
    rfl
  refine ⟨by decide, by decide, by decide, by decide, ⟨rfl, rfl, rfl, rfl⟩, _, hreach,
    hstored, ?_⟩
  exact (tag_invariant_reachable (sample_env [] (-1) (.finite 1) 7 false true) 0
    (sample_state .null [] [] 0x40000000 0x40000001) _ (by decide) (by decide) (by decide)
    (by decide) ⟨rfl, rfl, rfl, rfl⟩ hreach (.long 2) hstored (by decide)).2
    ⟨by decide, by decide, by decide⟩

/-! ## C7 and C8: the rule matcher on values that are not strings -/

/-- C7 as the claim states it fails on this input: the pattern is the integer
`5`, present and not a string; `dd_rule_matches` returns false, and the rule
`{service: 5, sample_rate: 1.0}` is not adopted for the span with service
`"payments"`: the loop ends with the default rate and flag. -/
theorem rule_matches_non_string_pattern_counterexample :
    dd_rule_matches (sample_env [] (-1) (.finite (1 / 5)) 7 false true) (.long 5)
      (.string "payments") = false ∧
    dd_sampling_rules_loop (sample_env [] (-1) (.finite (1 / 5)) 7 false true)
      ((sample_state (.string "payments") [] [] 0x40000000 0x40000001).spans 0)
      [.array [("service", .long 5), ("sample_rate", .double (.finite 1))]]
      (.finite (1 / 5), false) = (.finite (1 / 5), false) := by
  constructor
  · rfl
  · simp [dd_sampling_rules_loop, zend_hash_str_find, dd_rule_matches]

/-- C7, amended: for every rule field whose pattern is present but is not a
string, and every span attribute value, `dd_rule_matches` returns false, and a
rule that has such a pattern in its field `service` or `name` is never adopted:
the loop goes on with the rules that follow. -/
theorem rule_matches_non_string_pattern {R L : Type} (env : Env R L) (pattern : Zval)
    (hpattern : ∀ s : String, pattern ≠ .string s) :
    (∀ prop : Zval, dd_rule_matches env pattern prop = false) ∧
    (∀ (span : ddtrace_span_data) (ht : HashTable Zval) (rest : List Zval)
        (acc : CDouble × Bool),
      (zend_hash_str_find ht "service" = some pattern ∨
        zend_hash_str_find ht "name" = some pattern) →
      dd_sampling_rules_loop env span (.array ht :: rest) acc
        = dd_sampling_rules_loop env span rest acc) := by
  have hfalse : ∀ prop : Zval, dd_rule_matches env pattern prop = false := by
    intro prop
    cases pattern with
    | string s => exact absurd rfl (hpattern s)
    | _ => rfl
  refine ⟨hfalse, ?_⟩
  intro span ht rest acc h
  rw [rules_loop_cons]
  have : spec_rule_rate env span (.array ht) = none := by
    simp only [spec_rule_rate]
    rcases h with h | h
    · simp [h, hfalse]
    · simp [h, hfalse]
  rw [this]

theorem rule_matches_non_string_pattern_witness :
    (∀ s : String, Zval.long 5 ≠ .string s) ∧
    dd_rule_matches (sample_env [] (-1) (.finite (1 / 5)) 7 false true) (.long 5)
      (.string "payments") = false :=
  ⟨fun _ h => Zval.noConfusion h,
    (rule_matches_non_string_pattern (sample_env [] (-1) (.finite (1 / 5)) 7 false true)
      (.long 5) (fun _ h => Zval.noConfusion h)).1 (.string "payments")⟩

/-- C8: for every string pattern and every span attribute value that is not a
string (unset, null or of another type), `dd_rule_matches` returns true,
whatever the regular-expression engine would answer: the result is the same
for every replacement of the engine. -/
theorem rule_matches_non_string_value {R L : Type} (env : Env R L) (pattern : String)
    (prop : Zval) (hprop : ∀ v : String, prop ≠ .string v) :
    ∀ matcher : String → String → Zval,
      dd_rule_matches { env with php_pcre_match_impl := matcher } (.string pattern) prop
        = true := by
  intro matcher
  cases prop with
  | string v => exact absurd rfl (hprop v)
  | _ => rfl

theorem rule_matches_non_string_value_witness :
    (∀ v : String, Zval.null ≠ .string v) ∧
    dd_rule_matches
      { sample_env [] (-1) (.finite (1 / 5)) 7 false true with
        php_pcre_match_impl := fun _ _ => .false_ }
      (.string "(") .null = true :=
  ⟨fun _ h => Zval.noConfusion h,
    rule_matches_non_string_value (sample_env [] (-1) (.finite (1 / 5)) 7 false true) "(" .null
      (fun _ h => Zval.noConfusion h) (fun _ _ => .false_)⟩

/-! ## C9: the mechanism codes written in the tag -/

theorem store_priority_probabilistic {R L : Type} (env : Env R L) (st : State R L) (span : Nat)
    (hdefault : zend_long_to_int st.default_priority_sampling = env.DDTRACE_PRIORITY_SAMPLING_UNKNOWN) :
    zend_hash_str_find (((dd_decide_on_sampling_store env st span).1.spans span).metrics)
      "_sampling_priority_v1" = some (.long (
        let found := dd_sampling_rules_loop env (st.spans span) env.get_DD_TRACE_SAMPLING_RULES
          (env.get_DD_TRACE_SAMPLE_RATE, decide (env.sample_rate_name_index ≥ 0))
        let sampled := dd_sampling_test (env.genrand64_int64 st.mt19937).1 found.1
        let limited := env.ddtrace_limiter_active st.limiter && sampled &&
          !(env.ddtrace_limiter_allow st.limiter).1
        if found.2 then
          (if sampled && !limited then env.PRIORITY_SAMPLING_USER_KEEP
           else env.PRIORITY_SAMPLING_USER_REJECT)
        else
          (if sampled && !limited then env.PRIORITY_SAMPLING_AUTO_KEEP
           else env.PRIORITY_SAMPLING_AUTO_REJECT))) := by
  simp only [dd_decide_on_sampling_store, hdefault, if_true, set_metrics_spans_self,
    find_update_self]
  congr 2
  generalize (dd_sampling_rules_loop env (st.spans span) env.get_DD_TRACE_SAMPLING_RULES
    (env.get_DD_TRACE_SAMPLE_RATE, decide (env.sample_rate_name_index ≥ 0))).2 = rb
  generalize dd_sampling_test (env.genrand64_int64 st.mt19937).1 _ = sm
  generalize env.ddtrace_limiter_active st.limiter = ac
  cases rb <;> cases sm <;> cases ac <;> simp

theorem store_priority_concrete {R L : Type} (env : Env R L) (st : State R L) (span : Nat)
    (hdefault : zend_long_to_int st.default_priority_sampling ≠ env.DDTRACE_PRIORITY_SAMPLING_UNKNOWN) :
    zend_hash_str_find (((dd_decide_on_sampling_store env st span).1.spans span).metrics)
      "_sampling_priority_v1"
      = some (.long (zend_long_to_int st.default_priority_sampling)) := by
  simp only [dd_decide_on_sampling_store, hdefault, if_false, set_metrics_spans_self,
    find_update_self]

theorem store_mechanism {R L : Type} (env : Env R L) (st : State R L) (span : Nat) :
    (dd_decide_on_sampling_store env st span).2 =
      if zend_long_to_int st.default_priority_sampling = env.DDTRACE_PRIORITY_SAMPLING_UNKNOWN then
        (if (dd_sampling_rules_loop env (st.spans span) env.get_DD_TRACE_SAMPLING_RULES
            (env.get_DD_TRACE_SAMPLE_RATE, decide (env.sample_rate_name_index ≥ 0))).2
          then dd_sampling_mechanism.DD_MECHANISM_RULE
          else dd_sampling_mechanism.DD_MECHANISM_AGENT_RATE)
      else dd_sampling_mechanism.DD_MECHANISM_MANUAL := by
  simp only [dd_decide_on_sampling_store]
  split_ifs <;> rfl

/-- The decision on a root span without tag: the state returned, the priority
stored, and the tag when that priority is a keep that differs from the
propagated priority. -/
theorem decide_root_tag {R L : Type} (env : Env R L) (fuel : Nat) (st : State R L) (span : Nat)
    (hroot : (st.spans span).root = span)
    (hnotag : zend_hash_str_find (st.spans span).meta "_dd.p.dm" = none) :
    ∃ (st' : State R L) (p : Int),
      dd_decide_on_sampling env (fuel + 3) st span = some st' ∧
      zend_hash_str_find (((dd_decide_on_sampling_store env st span).1.spans span).metrics)
        "_sampling_priority_v1" = some (.long p) ∧
      zend_hash_str_find (st'.spans span).metrics "_sampling_priority_v1" = some (.long p) ∧
      (p ≠ st.propagated_priority_sampling → p > 0 →
        p ≠ env.DDTRACE_PRIORITY_SAMPLING_UNSET →
        zend_hash_str_find (st'.spans span).meta "_dd.p.dm" = some (.string
          ("-" ++ toString (dd_decide_on_sampling_store env st span).2.code))) := by
  obtain ⟨p, hp, hdec⟩ := decide_root env fuel st span hroot
  refine ⟨_, p, hdec, hp, by rw [apply_metrics]; exact hp, ?_⟩
  intro h1 h2 h3
  rw [apply_keep env _ span _ p (by rw [(store_globals env st span).2.2]; exact Ne.symm h1)
    ⟨h2, h3⟩, store_meta, hnotag]

/-- C9: the mechanism codes on the wire.  The decision on a root span that has
no `_dd.p.dm` tag returns and stores a priority `p`.  On the probabilistic path
with a rule-based decision `p` is `USER_KEEP` or `USER_REJECT` and, when `p` is
a keep (positive, not `UNSET`) that differs from the propagated priority, the
tag written is exactly `"-3"`; with an agent-rate decision `p` is `AUTO_KEEP` or
`AUTO_REJECT` and the tag written for such a keep is exactly `"-1"`; when a
concrete process default priority is adopted `p` is that default, as the `int`
of line 61, and the tag written for such a keep is exactly `"-4"`.  The
probabilistic path is the one on which that `int` is `UNKNOWN`. -/
theorem decision_maker_tag_codes {R L : Type} (env : Env R L) (fuel : Nat) (st : State R L)
    (span : Nat) (hroot : (st.spans span).root = span)
    (hnotag : zend_hash_str_find (st.spans span).meta "_dd.p.dm" = none) :
    ∃ (st' : State R L) (p : Int),
      dd_decide_on_sampling env (fuel + 3) st span = some st' ∧
      zend_hash_str_find (st'.spans span).metrics "_sampling_priority_v1" = some (.long p) ∧
      (zend_long_to_int st.default_priority_sampling = env.DDTRACE_PRIORITY_SAMPLING_UNKNOWN →
        (dd_sampling_rules_loop env (st.spans span) env.get_DD_TRACE_SAMPLING_RULES
          (env.get_DD_TRACE_SAMPLE_RATE, decide (env.sample_rate_name_index ≥ 0))).2 = true →
        (p = env.PRIORITY_SAMPLING_USER_KEEP ∨ p = env.PRIORITY_SAMPLING_USER_REJECT) ∧
        (p ≠ st.propagated_priority_sampling → p > 0 →
          p ≠ env.DDTRACE_PRIORITY_SAMPLING_UNSET →
          zend_hash_str_find (st'.spans span).meta "_dd.p.dm" = some (.string "-3"))) ∧
      (zend_long_to_int st.default_priority_sampling = env.DDTRACE_PRIORITY_SAMPLING_UNKNOWN →
        (dd_sampling_rules_loop env (st.spans span) env.get_DD_TRACE_SAMPLING_RULES
          (env.get_DD_TRACE_SAMPLE_RATE, decide (env.sample_rate_name_index ≥ 0))).2 = false →
        (p = env.PRIORITY_SAMPLING_AUTO_KEEP ∨ p = env.PRIORITY_SAMPLING_AUTO_REJECT) ∧
        (p ≠ st.propagated_priority_sampling → p > 0 →
          p ≠ env.DDTRACE_PRIORITY_SAMPLING_UNSET →
          zend_hash_str_find (st'.spans span).meta "_dd.p.dm" = some (.string "-1"))) ∧
      (zend_long_to_int st.default_priority_sampling ≠ env.DDTRACE_PRIORITY_SAMPLING_UNKNOWN →
        p = zend_long_to_int st.default_priority_sampling ∧
        (p ≠ st.propagated_priority_sampling → p > 0 →
          p ≠ env.DDTRACE_PRIORITY_SAMPLING_UNSET →
          zend_hash_str_find (st'.spans span).meta "_dd.p.dm" = some (.string "-4"))) := by
  obtain ⟨st', p, hdec, hp, hp', htag⟩ := decide_root_tag env fuel st span hroot hnotag
  refine ⟨st', p, hdec, hp', ?_, ?_, ?_⟩
  · intro hd hrb
    rw [store_mechanism, if_pos hd, if_pos hrb] at htag
    rw [store_priority_probabilistic env st span hd] at hp
    simp only [hrb, if_true, Option.some.injEq, Zval.long.injEq] at hp
    refine ⟨?_, fun h1 h2 h3 => by rw [htag h1 h2 h3]; rfl⟩
    rw [← hp]
    split_ifs
    · exact Or.inl rfl
    · exact Or.inr rfl
  · intro hd hrb
    rw [store_mechanism, if_pos hd, if_neg (by simp [hrb])] at htag
    rw [store_priority_probabilistic env st span hd] at hp
    simp only [hrb, Option.some.injEq, Zval.long.injEq] at hp
    refine ⟨?_, fun h1 h2 h3 => by rw [htag h1 h2 h3]; rfl⟩
    rw [← hp]
    simp only [Bool.false_eq_true, if_false]
    split_ifs
    · exact Or.inl rfl
    · exact Or.inr rfl
  · intro hd
    rw [store_mechanism, if_neg hd] at htag
    rw [store_priority_concrete env st span hd] at hp
    simp only [Option.some.injEq, Zval.long.injEq] at hp
    exact ⟨hp.symm, fun h1 h2 h3 => by rw [htag h1 h2 h3]; rfl⟩

/-- The scenario of the specification: rule `{service: "payments", sample_rate:
1.0}`, span service `"payments"`, a draw that the sampler keeps, limiter
inactive: priority `USER_KEEP` (`2`), `_dd.rule_psr = 1.0`, tag `"-3"`. -/
theorem decision_maker_tag_codes_witness :
    ((sample_state (.string "payments") [] [] 0x40000000 0x40000001).spans 0).root = 0 ∧
    zend_hash_str_find
      ((sample_state (.string "payments") [] [] 0x40000000 0x40000001).spans 0).meta
      "_dd.p.dm" = none ∧
    ∃ st' : State Nat Nat,
      dd_decide_on_sampling (sample_env [payments_rule] (-1) (.finite (1 / 5)) 7 false true) 3
        (sample_state (.string "payments") [] [] 0x40000000 0x40000001) 0 = some st' ∧
      zend_hash_str_find (st'.spans 0).metrics "_sampling_priority_v1" = some (.long 2) ∧
      zend_hash_str_find (st'.spans 0).metrics "_dd.rule_psr" = some (.double (.finite 1)) ∧
      zend_hash_str_find (st'.spans 0).meta "_dd.p.dm" = some (.string "-3") := by
  refine ⟨rfl, rfl, ?_⟩
  have hloop : dd_sampling_rules_loop
      (sample_env [payments_rule] (-1) (.finite (1 / 5)) 7 false true)
      ((sample_state (.string "payments") [] [] 0x40000000 0x40000001).spans 0)
      (sample_env [payments_rule] (-1) (.finite (1 / 5)) 7 false
        true).get_DD_TRACE_SAMPLING_RULES
      ((sample_env [payments_rule] (-1) (.finite (1 / 5)) 7 false
        true).get_DD_TRACE_SAMPLE_RATE,
        decide ((sample_env [payments_rule] (-1) (.finite (1 / 5)) 7 false
          true).sample_rate_name_index ≥ 0)) = (.finite 1, true) := by
    simp [dd_sampling_rules_loop, payments_rule, zend_hash_str_find, dd_rule_matches,
      sample_env, sample_state, zval_get_double]
  obtain ⟨st', p, hdec, hp, hrule, _, _⟩ := decision_maker_tag_codes
    (sample_env [payments_rule] (-1) (.finite (1 / 5)) 7 false true) 0
    (sample_state (.string "payments") [] [] 0x40000000 0x40000001) 0 rfl rfl
  obtain ⟨q, _, hdec'⟩ := decide_root
    (sample_env [payments_rule] (-1) (.finite (1 / 5)) 7 false true) 0
    (sample_state (.string "payments") [] [] 0x40000000 0x40000001) 0 rfl
  rw [hdec] at hdec'
  simp only [Option.some.injEq] at hdec'
  have hpsr : zend_hash_str_find (st'.spans 0).metrics "_dd.rule_psr"
      = some (.double (.finite 1)) := by
    rw [hdec', apply_metrics, store_rule_psr _ _ _ rfl, hloop]
  have hp2 : p = 2 := by
    have hform := store_priority_probabilistic
      (sample_env [payments_rule] (-1) (.finite (1 / 5)) 7 false true)
      (sample_state (.string "payments") [] [] 0x40000000 0x40000001) 0 rfl
    rw [hdec', apply_metrics, hform] at hp
    simp only [hloop, sampling_test_rate_one] at hp
    simp [sample_env, sample_state] at hp
    exact hp.symm
  subst hp2
  exact ⟨st', hdec, hp, hpsr, (hrule rfl (by rw [hloop])).2 (by decide) (by decide) (by decide)⟩

/-! ## C10: sample rate 1.0 -/

/-- C10 as the claim states it fails on this input: the rule `{service:
"payments", sample_rate: 1.0}` is adopted for the span with service
`"payments"`, the limiter is inactive, the process default priority is
`UNKNOWN` and the draw is `2^64 - 1`.  Both `(double)(2^64 - 1)` and
`1.0 * (double)~0ULL` are `2^64`, the comparison `<` is false, and the priority
stored is `USER_REJECT` (`-1`), not `USER_KEEP` (`2`). -/
theorem rate_one_largest_draw_counterexample :
    ∃ st' : State Nat Nat,
      (sample_env [payments_rule] (-1) (.finite (1 / 5)) (2 ^ 64 - 1) false
        true).get_DD_TRACE_SAMPLING_RULES.findSome?
        (spec_rule_rate (sample_env [payments_rule] (-1) (.finite (1 / 5)) (2 ^ 64 - 1) false true)
          ((sample_state (.string "payments") [] [] 0x40000000 0x40000001).spans 0))
        = some (.finite 1) ∧
      (sample_env [payments_rule] (-1) (.finite (1 / 5)) (2 ^ 64 - 1) false
        true).ddtrace_limiter_active
        (sample_state (.string "payments") [] [] 0x40000000 0x40000001).limiter = false ∧
      ((sample_env [payments_rule] (-1) (.finite (1 / 5)) (2 ^ 64 - 1) false
        true).genrand64_int64
        (sample_state (.string "payments") [] [] 0x40000000 0x40000001).mt19937).1
        = 2 ^ 64 - 1 ∧
      dd_sampling_test (2 ^ 64 - 1) (.finite 1) = false ∧
      (sample_env [payments_rule] (-1) (.finite (1 / 5)) (2 ^ 64 - 1) false
        true).PRIORITY_SAMPLING_USER_KEEP = 2 ∧
      dd_decide_on_sampling
        (sample_env [payments_rule] (-1) (.finite (1 / 5)) (2 ^ 64 - 1) false true) 3
        (sample_state (.string "payments") [] [] 0x40000000 0x40000001) 0 = some st' ∧
      zend_hash_str_find (st'.spans 0).metrics "_sampling_priority_v1"
        = some (.long (-1)) := by
  have htest : dd_sampling_test (2 ^ 64 - 1) (.finite 1) = false := by
    rw [sampling_test_rate_one]
    norm_num
  have hloop : dd_sampling_rules_loop
      (sample_env [payments_rule] (-1) (.finite (1 / 5)) (2 ^ 64 - 1) false true)
      ((sample_state (.string "payments") [] [] 0x40000000 0x40000001).spans 0)
      [payments_rule] (.finite (1 / 5), decide ((-1 : Int) ≥ 0)) = (.finite 1, true) := by
    simp [dd_sampling_rules_loop, payments_rule, zend_hash_str_find, dd_rule_matches,
      sample_env, sample_state, zval_get_double]
  obtain ⟨q, hq, hdec⟩ := decide_root
    (sample_env [payments_rule] (-1) (.finite (1 / 5)) (2 ^ 64 - 1) false true) 0
    (sample_state (.string "payments") [] [] 0x40000000 0x40000001) 0 rfl
  refine ⟨_, ?_, rfl, rfl, htest, rfl, hdec, ?_⟩
  · simp [List.findSome?, spec_rule_rate, payments_rule, zend_hash_str_find, dd_rule_matches,
      sample_env, sample_state, zval_get_double]
  · rw [apply_metrics, store_priority_probabilistic _ _ _ rfl]
    have hdraw : ((sample_env [payments_rule] (-1) (.finite (1 / 5)) (2 ^ 64 - 1) false
        true).genrand64_int64
        (sample_state (.string "payments") [] [] 0x40000000 0x40000001).mt19937).1
        = 2 ^ 64 - 1 := rfl
    have hrules : (sample_env [payments_rule] (-1) (.finite (1 / 5)) (2 ^ 64 - 1) false
        true).get_DD_TRACE_SAMPLING_RULES = [payments_rule] := rfl
    have hrate : (sample_env [payments_rule] (-1) (.finite (1 / 5)) (2 ^ 64 - 1) false
        true).get_DD_TRACE_SAMPLE_RATE = .finite (1 / 5) := rfl
    have hidx : (sample_env [payments_rule] (-1) (.finite (1 / 5)) (2 ^ 64 - 1) false
        true).sample_rate_name_index = -1 := rfl
    simp only [hdraw, hrules, hrate, hidx, hloop, htest]
    rfl

/-- C10, amended: when the rule adopted by the rule set evaluator has sample
rate `1.0`, the limiter is inactive and the process default priority is
`UNKNOWN`, the decision on a root span returns and the priority stored is
`USER_KEEP` for every draw below `2^64 - 1024`; for the `1024` draws from
`2^64 - 1024` to `2^64 - 1`, whose conversion to `double` is `2^64`, it is
`USER_REJECT`. -/
theorem rate_one_keeps_below_rounding_boundary {R L : Type} (env : Env R L) (fuel : Nat)
    (st : State R L) (span : Nat)
    (hroot : (st.spans span).root = span)
    (hdefault : st.default_priority_sampling = env.DDTRACE_PRIORITY_SAMPLING_UNKNOWN)
    (hrule : env.get_DD_TRACE_SAMPLING_RULES.findSome? (spec_rule_rate env (st.spans span))
      = some (.finite 1))
    (hinactive : env.ddtrace_limiter_active st.limiter = false) :
    ∃ st' : State R L,
      dd_decide_on_sampling env (fuel + 3) st span = some st' ∧
      zend_hash_str_find (st'.spans span).metrics "_sampling_priority_v1" = some (.long
        (if (env.genrand64_int64 st.mt19937).1 % 2 ^ 64 < 2 ^ 64 - 1024 then
          env.PRIORITY_SAMPLING_USER_KEEP
        else env.PRIORITY_SAMPLING_USER_REJECT)) := by
  have hdefault := default_unknown_narrows env st hdefault
  obtain ⟨q, _, hdec⟩ := decide_root env fuel st span hroot
  refine ⟨_, hdec, ?_⟩
  have hloop : dd_sampling_rules_loop env (st.spans span) env.get_DD_TRACE_SAMPLING_RULES
      (env.get_DD_TRACE_SAMPLE_RATE, decide (env.sample_rate_name_index ≥ 0))
      = (.finite 1, true) := by
    rw [rules_loop_eq_spec]
    simp only [spec_rule_set_evaluator, hrule]
  rw [apply_metrics, store_priority_probabilistic env st span hdefault]
  simp only [hloop, sampling_test_rate_one, hinactive]
  by_cases hdraw : (env.genrand64_int64 st.mt19937).1 % 2 ^ 64 < 2 ^ 64 - 1024
  · simp [hdraw]
  · simp [hdraw]

theorem rate_one_keeps_below_rounding_boundary_witness :
    ((sample_state (.string "payments") [] [] 0x40000000 0x40000001).spans 0).root = 0 ∧
    (sample_state (.string "payments") [] [] 0x40000000 0x40000001).default_priority_sampling
      = (sample_env [payments_rule] (-1) (.finite (1 / 5)) (2 ^ 64 - 1025) false
          true).DDTRACE_PRIORITY_SAMPLING_UNKNOWN ∧
    (sample_env [payments_rule] (-1) (.finite (1 / 5)) (2 ^ 64 - 1025) false
      true).get_DD_TRACE_SAMPLING_RULES.findSome?
      (spec_rule_rate (sample_env [payments_rule] (-1) (.finite (1 / 5)) (2 ^ 64 - 1025) false
        true) ((sample_state (.string "payments") [] [] 0x40000000 0x40000001).spans 0))
      = some (.finite 1) ∧
    (sample_env [payments_rule] (-1) (.finite (1 / 5)) (2 ^ 64 - 1025) false
      true).ddtrace_limiter_active
      (sample_state (.string "payments") [] [] 0x40000000 0x40000001).limiter = false ∧
    ∃ st' : State Nat Nat,
      dd_decide_on_sampling
        (sample_env [payments_rule] (-1) (.finite (1 / 5)) (2 ^ 64 - 1025) false true) 3
        (sample_state (.string "payments") [] [] 0x40000000 0x40000001) 0 = some st' ∧
      zend_hash_str_find (st'.spans 0).metrics "_sampling_priority_v1" = some (.long 2) := by
  have hrule : (sample_env [payments_rule] (-1) (.finite (1 / 5)) (2 ^ 64 - 1025) false
      true).get_DD_TRACE_SAMPLING_RULES.findSome?
      (spec_rule_rate (sample_env [payments_rule] (-1) (.finite (1 / 5)) (2 ^ 64 - 1025) false
        true) ((sample_state (.string "payments") [] [] 0x40000000 0x40000001).spans 0))
      = some (.finite 1) := by
    simp [List.findSome?, spec_rule_rate, payments_rule, zend_hash_str_find, dd_rule_matches,
      sample_env, sample_state, zval_get_double]
  refine ⟨rfl, rfl, hrule, rfl, ?_⟩
  obtain ⟨st', h1, h2⟩ := rate_one_keeps_below_rounding_boundary
    (sample_env [payments_rule] (-1) (.finite (1 / 5)) (2 ^ 64 - 1025) false true) 0
    (sample_state (.string "payments") [] [] 0x40000000 0x40000001) 0 rfl rfl hrule rfl
  refine ⟨st', h1, ?_⟩
  rw [h2]
  have hdraw : ((sample_env [payments_rule] (-1) (.finite (1 / 5)) (2 ^ 64 - 1025) false
      true).genrand64_int64
      (sample_state (.string "payments") [] [] 0x40000000 0x40000001).mt19937).1
      = 2 ^ 64 - 1025 := rfl
  rw [hdraw]
  norm_num
  rfl

/-! ## C11: sample rate 0.0 -/

theorem store_limiter {R L : Type} (env : Env R L) (st : State R L) (span : Nat) :
    (dd_decide_on_sampling_store env st span).1.limiter =
      if zend_long_to_int st.default_priority_sampling = env.DDTRACE_PRIORITY_SAMPLING_UNKNOWN then
        (if env.ddtrace_limiter_active st.limiter &&
            dd_sampling_test (env.genrand64_int64 st.mt19937).1
              (dd_sampling_rules_loop env (st.spans span) env.get_DD_TRACE_SAMPLING_RULES
                (env.get_DD_TRACE_SAMPLE_RATE, decide (env.sample_rate_name_index ≥ 0))).1
          then (env.ddtrace_limiter_allow st.limiter).2
          else st.limiter)
      else st.limiter := by
  by_cases hd : zend_long_to_int st.default_priority_sampling = env.DDTRACE_PRIORITY_SAMPLING_UNKNOWN
  · simp only [dd_decide_on_sampling_store, hd, if_true]
    split_ifs <;> simp_all [State.set_metrics]
  · simp only [dd_decide_on_sampling_store, hd, if_false]
    simp [State.set_metrics]

/-- C11: rate 0.0 keeps nothing.  When the rule adopted by the rule set
evaluator has sample rate `0.0` and the process default priority is `UNKNOWN`,
the decision on a root span returns, the priority stored is `USER_REJECT`
whatever the draw and whatever the limiter would answer, and the limiter state
is the one before the call: `allow()` is not called. -/
theorem rate_zero_rejects {R L : Type} (env : Env R L) (fuel : Nat) (st : State R L)
    (span : Nat)
    (hroot : (st.spans span).root = span)
    (hdefault : st.default_priority_sampling = env.DDTRACE_PRIORITY_SAMPLING_UNKNOWN)
    (hrule : env.get_DD_TRACE_SAMPLING_RULES.findSome? (spec_rule_rate env (st.spans span))
      = some (.finite 0)) :
    ∃ st' : State R L,
      dd_decide_on_sampling env (fuel + 3) st span = some st' ∧
      zend_hash_str_find (st'.spans span).metrics "_sampling_priority_v1"
        = some (.long env.PRIORITY_SAMPLING_USER_REJECT) ∧
      st'.limiter = st.limiter := by
  have hdefault := default_unknown_narrows env st hdefault
  obtain ⟨q, _, hdec⟩ := decide_root env fuel st span hroot
  refine ⟨_, hdec, ?_, ?_⟩
  · have hloop : dd_sampling_rules_loop env (st.spans span) env.get_DD_TRACE_SAMPLING_RULES
        (env.get_DD_TRACE_SAMPLE_RATE, decide (env.sample_rate_name_index ≥ 0))
        = (.finite 0, true) := by
      rw [rules_loop_eq_spec]
      simp only [spec_rule_set_evaluator, hrule]
    rw [apply_metrics, store_priority_probabilistic env st span hdefault]
    simp only [hloop, sampling_test_rate_zero]
    simp
  · have hloop : dd_sampling_rules_loop env (st.spans span) env.get_DD_TRACE_SAMPLING_RULES
        (env.get_DD_TRACE_SAMPLE_RATE, decide (env.sample_rate_name_index ≥ 0))
        = (.finite 0, true) := by
      rw [rules_loop_eq_spec]
      simp only [spec_rule_set_evaluator, hrule]
    rw [(apply_globals env _ span _ q).2.1, store_limiter, if_pos hdefault, hloop]
    simp only [sampling_test_rate_zero, Bool.and_false, Bool.false_eq_true, if_false]

theorem rate_zero_rejects_witness :
    ((sample_state (.string "payments") [] [] 0x40000000 0x40000001).spans 0).root = 0 ∧
    (sample_state (.string "payments") [] [] 0x40000000 0x40000001).default_priority_sampling
      = (sample_env [zero_rule] (-1) (.finite (1 / 5)) 0 true
          true).DDTRACE_PRIORITY_SAMPLING_UNKNOWN ∧
    (sample_env [zero_rule] (-1) (.finite (1 / 5)) 0 true
      true).get_DD_TRACE_SAMPLING_RULES.findSome?
      (spec_rule_rate (sample_env [zero_rule] (-1) (.finite (1 / 5)) 0 true true)
        ((sample_state (.string "payments") [] [] 0x40000000 0x40000001).spans 0))
      = some (.finite 0) ∧
    ∃ st' : State Nat Nat,
      dd_decide_on_sampling (sample_env [zero_rule] (-1) (.finite (1 / 5)) 0 true true) 3
        (sample_state (.string "payments") [] [] 0x40000000 0x40000001) 0 = some st' ∧
      zend_hash_str_find (st'.spans 0).metrics "_sampling_priority_v1"
        = some (.long (-1)) ∧
      st'.limiter = 0 := by
  have hrule : (sample_env [zero_rule] (-1) (.finite (1 / 5)) 0 true
      true).get_DD_TRACE_SAMPLING_RULES.findSome?
      (spec_rule_rate (sample_env [zero_rule] (-1) (.finite (1 / 5)) 0 true true)
        ((sample_state (.string "payments") [] [] 0x40000000 0x40000001).spans 0))
      = some (.finite 0) := by
    simp [List.findSome?, spec_rule_rate, zero_rule, zend_hash_str_find, dd_rule_matches,
      sample_env, sample_state, zval_get_double]
  exact ⟨rfl, rfl, hrule, rate_zero_rejects
    (sample_env [zero_rule] (-1) (.finite (1 / 5)) 0 true true) 0
    (sample_state (.string "payments") [] [] 0x40000000 0x40000001) 0 rfl rfl hrule⟩

/-! ## C12: the implicit default rate is an agent-rate decision -/

/-- C12: implicit default is agent rate.  When no rule of the list is adopted
for the span (in particular when none matches or the list is empty), the
default sample rate is not explicitly configured and the process default
priority is `UNKNOWN`, the decision on a root span returns and, whatever the
draw and the limiter answer, the priority stored is `AUTO_KEEP` or
`AUTO_REJECT`, hence neither `USER_KEEP` nor `USER_REJECT`; the mechanism handed
to the tag updater is `AGENT_RATE`, so that on a span without tag the tag is
afterwards absent or `"-1"`, and it is `"-1"` when the priority is a keep that
differs from the propagated priority; and `_dd.rule_psr` is the default rate.
The four priorities are taken to be distinct. -/
theorem implicit_default_is_agent_rate {R L : Type} (env : Env R L) (fuel : Nat)
    (st : State R L) (span : Nat)
    (hroot : (st.spans span).root = span)
    (hdefault : st.default_priority_sampling = env.DDTRACE_PRIORITY_SAMPLING_UNKNOWN)
    (hnone : ∀ rule ∈ env.get_DD_TRACE_SAMPLING_RULES,
      spec_rule_rate env (st.spans span) rule = none)
    (himplicit : ¬ (env.sample_rate_name_index ≥ 0))
    (hdistinct : env.PRIORITY_SAMPLING_AUTO_KEEP ≠ env.PRIORITY_SAMPLING_USER_KEEP ∧
      env.PRIORITY_SAMPLING_AUTO_KEEP ≠ env.PRIORITY_SAMPLING_USER_REJECT ∧
      env.PRIORITY_SAMPLING_AUTO_REJECT ≠ env.PRIORITY_SAMPLING_USER_KEEP ∧
      env.PRIORITY_SAMPLING_AUTO_REJECT ≠ env.PRIORITY_SAMPLING_USER_REJECT) :
    ∃ (st' : State R L) (p : Int),
      dd_decide_on_sampling env (fuel + 3) st span = some st' ∧
      zend_hash_str_find (st'.spans span).metrics "_sampling_priority_v1" = some (.long p) ∧
      (p = env.PRIORITY_SAMPLING_AUTO_KEEP ∨ p = env.PRIORITY_SAMPLING_AUTO_REJECT) ∧
      p ≠ env.PRIORITY_SAMPLING_USER_KEEP ∧ p ≠ env.PRIORITY_SAMPLING_USER_REJECT ∧
      (dd_decide_on_sampling_store env st span).2
        = dd_sampling_mechanism.DD_MECHANISM_AGENT_RATE ∧
      (zend_hash_str_find (st.spans span).meta "_dd.p.dm" = none →
        (zend_hash_str_find (st'.spans span).meta "_dd.p.dm" = none ∨
          zend_hash_str_find (st'.spans span).meta "_dd.p.dm" = some (.string "-1")) ∧
        (p ≠ st.propagated_priority_sampling → p > 0 →
          p ≠ env.DDTRACE_PRIORITY_SAMPLING_UNSET →
          zend_hash_str_find (st'.spans span).meta "_dd.p.dm" = some (.string "-1"))) ∧
      zend_hash_str_find (st'.spans span).metrics "_dd.rule_psr"
        = some (.double env.get_DD_TRACE_SAMPLE_RATE) := by
  have hdefault := default_unknown_narrows env st hdefault
  have hloop : dd_sampling_rules_loop env (st.spans span) env.get_DD_TRACE_SAMPLING_RULES
      (env.get_DD_TRACE_SAMPLE_RATE, decide (env.sample_rate_name_index ≥ 0))
      = (env.get_DD_TRACE_SAMPLE_RATE, false) := by
    rw [rules_loop_no_hit env _ _ _ hnone]
    simp [himplicit]
  have hmech : (dd_decide_on_sampling_store env st span).2
      = dd_sampling_mechanism.DD_MECHANISM_AGENT_RATE := by
    rw [store_mechanism, if_pos hdefault, hloop]
    simp
  obtain ⟨p, hp, hdec⟩ := decide_root env fuel st span hroot
  have hp' := hp
  rw [store_priority_probabilistic env st span hdefault] at hp'
  simp only [hloop, Option.some.injEq, Zval.long.injEq, Bool.false_eq_true, if_false] at hp'
  have hauto : p = env.PRIORITY_SAMPLING_AUTO_KEEP ∨ p = env.PRIORITY_SAMPLING_AUTO_REJECT := by
    rw [← hp']
    split_ifs
    · exact Or.inl rfl
    · exact Or.inr rfl
  refine ⟨_, p, hdec, by rw [apply_metrics]; exact hp, hauto, ?_, ?_, hmech, ?_, ?_⟩
  · rcases hauto with h | h
    · rw [h]; exact hdistinct.1
    · rw [h]; exact hdistinct.2.2.1
  · rcases hauto with h | h
    · rw [h]; exact hdistinct.2.1
    · rw [h]; exact hdistinct.2.2.2
  · intro hnotag
    have hprop : (dd_decide_on_sampling_store env st span).1.propagated_priority_sampling
        = st.propagated_priority_sampling := (store_globals env st span).2.2
    have hmeta : zend_hash_str_find (((dd_decide_on_sampling_store env st span).1.spans
        span).meta) "_dd.p.dm" = none := by rw [store_meta]; exact hnotag
    have hkeep : ∀ (hne : (dd_decide_on_sampling_store env st span).1.propagated_priority_sampling
        ≠ p) (hk : p > 0 ∧ p ≠ env.DDTRACE_PRIORITY_SAMPLING_UNSET),
        zend_hash_str_find ((dd_update_decision_maker_tag_apply env
          (dd_decide_on_sampling_store env st span).1 span
          (dd_decide_on_sampling_store env st span).2 p).spans span).meta "_dd.p.dm"
          = some (.string "-1") := by
      intro hne hk
      rw [apply_keep env _ span _ p hne hk, hmeta, hmech]
      rfl
    constructor
    · by_cases hne : (dd_decide_on_sampling_store env st span).1.propagated_priority_sampling = p
      · left
        rw [apply_same_priority env _ span _ p hne]
        exact hmeta
      · by_cases hk : p > 0 ∧ p ≠ env.DDTRACE_PRIORITY_SAMPLING_UNSET
        · exact Or.inr (hkeep hne hk)
        · exact Or.inl (apply_not_keep env _ span _ p hne hk)
    · intro h1 h2 h3
      exact hkeep (by rw [hprop]; exact Ne.symm h1) ⟨h2, h3⟩
  · rw [apply_metrics, store_rule_psr env st span hdefault, hloop]

/-- The scenario of the specification: rule `{service: "x", sample_rate: 0.5}`,
span service `"payments"`, implicit default rate `0.2`: `_dd.rule_psr = 0.2`. -/
theorem implicit_default_is_agent_rate_witness :
    ((sample_state (.string "payments") [] [] 0x40000000 0x40000001).spans 0).root = 0 ∧
    (sample_state (.string "payments") [] [] 0x40000000 0x40000001).default_priority_sampling
      = (sample_env [x_rule] (-1) (.finite (1 / 5)) 7 false
          true).DDTRACE_PRIORITY_SAMPLING_UNKNOWN ∧
    (∀ rule ∈ (sample_env [x_rule] (-1) (.finite (1 / 5)) 7 false
        true).get_DD_TRACE_SAMPLING_RULES,
      spec_rule_rate (sample_env [x_rule] (-1) (.finite (1 / 5)) 7 false true)
        ((sample_state (.string "payments") [] [] 0x40000000 0x40000001).spans 0) rule
        = none) ∧
    ¬ ((sample_env [x_rule] (-1) (.finite (1 / 5)) 7 false true).sample_rate_name_index ≥ 0) ∧
    ∃ st' : State Nat Nat,
      dd_decide_on_sampling (sample_env [x_rule] (-1) (.finite (1 / 5)) 7 false true) 3
        (sample_state (.string "payments") [] [] 0x40000000 0x40000001) 0 = some st' ∧
      (dd_decide_on_sampling_store (sample_env [x_rule] (-1) (.finite (1 / 5)) 7 false true)
        (sample_state (.string "payments") [] [] 0x40000000 0x40000001) 0).2
        = dd_sampling_mechanism.DD_MECHANISM_AGENT_RATE ∧
      zend_hash_str_find (st'.spans 0).metrics "_dd.rule_psr"
        = some (.double (.finite (1 / 5))) := by
  have hnone : ∀ rule ∈ (sample_env [x_rule] (-1) (.finite (1 / 5)) 7 false
      true).get_DD_TRACE_SAMPLING_RULES,
      spec_rule_rate (sample_env [x_rule] (-1) (.finite (1 / 5)) 7 false true)
        ((sample_state (.string "payments") [] [] 0x40000000 0x40000001).spans 0) rule
        = none := by
    intro rule hrule
    have : rule = x_rule := by simpa [sample_env] using hrule
    subst this
    simp [spec_rule_rate, x_rule, zend_hash_str_find, dd_rule_matches, sample_env,
      sample_state]
  have himplicit : ¬ ((sample_env [x_rule] (-1) (.finite (1 / 5)) 7 false
      true).sample_rate_name_index ≥ 0) := by decide
  obtain ⟨st', p, h1, _, _, _, _, h6, _, h8⟩ := implicit_default_is_agent_rate
    (sample_env [x_rule] (-1) (.finite (1 / 5)) 7 false true) 0
    (sample_state (.string "payments") [] [] 0x40000000 0x40000001) 0 rfl rfl hnone himplicit
    ⟨by decide, by decide, by decide, by decide⟩
  exact ⟨rfl, rfl, hnone, himplicit, st', h1, h6, h8⟩

/-! ## C13: the metric `_dd.limit_psr` -/

/-- The metric `_dd.limit_psr` after lines 61-120 on the probabilistic path. -/
theorem store_limit_psr {R L : Type} (env : Env R L) (st : State R L) (span : Nat)
    (hdefault : zend_long_to_int st.default_priority_sampling = env.DDTRACE_PRIORITY_SAMPLING_UNKNOWN) :
    zend_hash_str_find (((dd_decide_on_sampling_store env st span).1.spans span).metrics)
      "_dd.limit_psr" =
      if (env.ddtrace_limiter_active st.limiter &&
          dd_sampling_test (env.genrand64_int64 st.mt19937).1
            (dd_sampling_rules_loop env (st.spans span) env.get_DD_TRACE_SAMPLING_RULES
              (env.get_DD_TRACE_SAMPLE_RATE, decide (env.sample_rate_name_index ≥ 0))).1 &&
          !(env.ddtrace_limiter_allow st.limiter).1) = true
      then some (.double (env.ddtrace_limiter_rate (env.ddtrace_limiter_allow st.limiter).2))
      else zend_hash_str_find (st.spans span).metrics "_dd.limit_psr" := by
  simp only [dd_decide_on_sampling_store, hdefault, if_true, set_metrics_spans_self]
  rw [find_update_ne _ _ _ _ (by decide)]
  generalize dd_sampling_test (env.genrand64_int64 st.mt19937).1 _ = sm
  generalize env.ddtrace_limiter_active st.limiter = ac
  cases ac <;> cases sm <;> cases hal : (env.ddtrace_limiter_allow st.limiter).1 <;>
    simp [hal, State.set_metrics, find_update_self, find_update_ne]

theorem store_limit_psr_concrete {R L : Type} (env : Env R L) (st : State R L) (span : Nat)
    (hdefault : zend_long_to_int st.default_priority_sampling ≠ env.DDTRACE_PRIORITY_SAMPLING_UNKNOWN) :
    zend_hash_str_find (((dd_decide_on_sampling_store env st span).1.spans span).metrics)
      "_dd.limit_psr" = zend_hash_str_find (st.spans span).metrics "_dd.limit_psr" := by
  simp only [dd_decide_on_sampling_store, hdefault, if_false, set_metrics_spans_self]
  rw [find_update_ne _ _ _ _ (by decide)]

/-- C13: `_dd.limit_psr` is recorded only on limiter rejection.  The decision on
a root span whose metrics do not contain `_dd.limit_psr` returns.  On the
probabilistic path the metric is present afterwards if and only if the limiter
is active, the sampler said keep and `allow()` answered false; its value is
then the rate the limiter reports after that call of `allow()`, and the
priority stored is `USER_REJECT` for a rule-based decision and `AUTO_REJECT`
otherwise.  When a concrete default priority is adopted no sampler runs and the
metric is absent afterwards.  The probabilistic path is the one on which the
default priority, converted to `int` at line 61, is `UNKNOWN`. -/
theorem limit_psr_only_on_limiter_rejection {R L : Type} (env : Env R L) (fuel : Nat)
    (st : State R L) (span : Nat)
    (hroot : (st.spans span).root = span)
    (habsent : zend_hash_str_find (st.spans span).metrics "_dd.limit_psr" = none) :
    ∃ st' : State R L,
      dd_decide_on_sampling env (fuel + 3) st span = some st' ∧
      (zend_long_to_int st.default_priority_sampling = env.DDTRACE_PRIORITY_SAMPLING_UNKNOWN →
        ((zend_hash_str_find (st'.spans span).metrics "_dd.limit_psr").isSome = true ↔
          (env.ddtrace_limiter_active st.limiter = true ∧
            dd_sampling_test (env.genrand64_int64 st.mt19937).1
              (dd_sampling_rules_loop env (st.spans span) env.get_DD_TRACE_SAMPLING_RULES
                (env.get_DD_TRACE_SAMPLE_RATE,
                  decide (env.sample_rate_name_index ≥ 0))).1 = true ∧
            (env.ddtrace_limiter_allow st.limiter).1 = false)) ∧
        ((env.ddtrace_limiter_active st.limiter = true ∧
            dd_sampling_test (env.genrand64_int64 st.mt19937).1
              (dd_sampling_rules_loop env (st.spans span) env.get_DD_TRACE_SAMPLING_RULES
                (env.get_DD_TRACE_SAMPLE_RATE,
                  decide (env.sample_rate_name_index ≥ 0))).1 = true ∧
            (env.ddtrace_limiter_allow st.limiter).1 = false) →
          zend_hash_str_find (st'.spans span).metrics "_dd.limit_psr" = some (.double
            (env.ddtrace_limiter_rate (env.ddtrace_limiter_allow st.limiter).2)) ∧
          st'.limiter = (env.ddtrace_limiter_allow st.limiter).2 ∧
          zend_hash_str_find (st'.spans span).metrics "_sampling_priority_v1" = some (.long
            (if (dd_sampling_rules_loop env (st.spans span) env.get_DD_TRACE_SAMPLING_RULES
                (env.get_DD_TRACE_SAMPLE_RATE, decide (env.sample_rate_name_index ≥ 0))).2
              then env.PRIORITY_SAMPLING_USER_REJECT
              else env.PRIORITY_SAMPLING_AUTO_REJECT)))) ∧
      (zend_long_to_int st.default_priority_sampling ≠ env.DDTRACE_PRIORITY_SAMPLING_UNKNOWN →
        zend_hash_str_find (st'.spans span).metrics "_dd.limit_psr" = none) := by
  obtain ⟨q, _, hdec⟩ := decide_root env fuel st span hroot
  refine ⟨_, hdec, ?_, ?_⟩
  · intro hd
    constructor
    · rw [apply_metrics, store_limit_psr env st span hd, habsent]
      generalize dd_sampling_test (env.genrand64_int64 st.mt19937).1 _ = sm
      generalize env.ddtrace_limiter_active st.limiter = ac
      cases ac <;> cases sm <;> cases (env.ddtrace_limiter_allow st.limiter).1 <;> simp
    · rintro ⟨hac, hsm, hal⟩
      refine ⟨?_, ?_, ?_⟩
      · rw [apply_metrics, store_limit_psr env st span hd, hac, hsm, hal]
        simp
      · rw [(apply_globals env _ span _ q).2.1, store_limiter, if_pos hd, hac, hsm]
        simp
      · rw [apply_metrics, store_priority_probabilistic env st span hd]
        simp only [hac, hsm, hal]
        simp
  · intro hd
    rw [apply_metrics, store_limit_psr_concrete env st span hd, habsent]

/-- The scenario of the specification: limiter active, the sampler says keep,
`allow()` answers false: priority `USER_REJECT`, `_dd.limit_psr` recorded with
the rate of the limiter. -/
theorem limit_psr_only_on_limiter_rejection_witness :
    ((sample_state (.string "payments") [] [] 0x40000000 0x40000001).spans 0).root = 0 ∧
    zend_hash_str_find
      ((sample_state (.string "payments") [] [] 0x40000000 0x40000001).spans 0).metrics
      "_dd.limit_psr" = none ∧
    ∃ st' : State Nat Nat,
      dd_decide_on_sampling (sample_env [payments_rule] (-1) (.finite (1 / 5)) 7 true false) 3
        (sample_state (.string "payments") [] [] 0x40000000 0x40000001) 0 = some st' ∧
      zend_hash_str_find (st'.spans 0).metrics "_dd.limit_psr"
        = some (.double (.finite (1 / 2))) ∧
      zend_hash_str_find (st'.spans 0).metrics "_sampling_priority_v1"
        = some (.long (-1)) := by
  refine ⟨rfl, rfl, ?_⟩
  have hloop : dd_sampling_rules_loop
      (sample_env [payments_rule] (-1) (.finite (1 / 5)) 7 true false)
      ((sample_state (.string "payments") [] [] 0x40000000 0x40000001).spans 0)
      (sample_env [payments_rule] (-1) (.finite (1 / 5)) 7 true
        false).get_DD_TRACE_SAMPLING_RULES
      ((sample_env [payments_rule] (-1) (.finite (1 / 5)) 7 true
        false).get_DD_TRACE_SAMPLE_RATE,
        decide ((sample_env [payments_rule] (-1) (.finite (1 / 5)) 7 true
          false).sample_rate_name_index ≥ 0)) = (.finite 1, true) := by
    simp [dd_sampling_rules_loop, payments_rule, zend_hash_str_find, dd_rule_matches,
      sample_env, sample_state, zval_get_double]
  obtain ⟨st', h1, h2, _⟩ := limit_psr_only_on_limiter_rejection
    (sample_env [payments_rule] (-1) (.finite (1 / 5)) 7 true false) 0
    (sample_state (.string "payments") [] [] 0x40000000 0x40000001) 0 rfl rfl
  have hsampled : dd_sampling_test
      ((sample_env [payments_rule] (-1) (.finite (1 / 5)) 7 true false).genrand64_int64
        (sample_state (.string "payments") [] [] 0x40000000 0x40000001).mt19937).1
      (dd_sampling_rules_loop
        (sample_env [payments_rule] (-1) (.finite (1 / 5)) 7 true false)
        ((sample_state (.string "payments") [] [] 0x40000000 0x40000001).spans 0)
        (sample_env [payments_rule] (-1) (.finite (1 / 5)) 7 true
          false).get_DD_TRACE_SAMPLING_RULES
        ((sample_env [payments_rule] (-1) (.finite (1 / 5)) 7 true
          false).get_DD_TRACE_SAMPLE_RATE,
          decide ((sample_env [payments_rule] (-1) (.finite (1 / 5)) 7 true
            false).sample_rate_name_index ≥ 0))).1 = true := by
    rw [hloop, sampling_test_rate_one]
    have : ((sample_env [payments_rule] (-1) (.finite (1 / 5)) 7 true false).genrand64_int64
        (sample_state (.string "payments") [] [] 0x40000000 0x40000001).mt19937).1 = 7 := rfl
    rw [this]
    norm_num
  obtain ⟨h3, _, h5⟩ := (h2 rfl).2 ⟨rfl, hsampled, rfl⟩
  refine ⟨st', h1, h3, ?_⟩
  rw [h5, hloop]
  rfl

/-! ## C14: the manual override -/

/-- The mutator on an active root span with a priority that is neither
`UNKNOWN` nor `UNSET`: the metric is stored, then lines 25-37 of the tag updater
run on that priority with mechanism `MANUAL`. -/
theorem set_root_override {R L : Type} (env : Env R L) (fuel : Nat) (st : State R L)
    (span : Nat) (priority : Int)
    (hactive : st.root_span = some span) (hroot : (st.spans span).root = span)
    (hp1 : priority ≠ env.DDTRACE_PRIORITY_SAMPLING_UNKNOWN)
    (hp2 : priority ≠ env.DDTRACE_PRIORITY_SAMPLING_UNSET) :
    ddtrace_set_prioritySampling_on_root env (fuel + 2) st priority =
      some (dd_update_decision_maker_tag_apply env
        (st.set_metrics span (zend_hash_str_update (st.spans span).metrics
          "_sampling_priority_v1" (.long priority)))
        span dd_sampling_mechanism.DD_MECHANISM_MANUAL priority) := by
  unfold ddtrace_set_prioritySampling_on_root
  simp only [hactive]
  rw [if_neg (by push_neg; exact ⟨hp1, hp2⟩)]
  have := tag_found env fuel (st.set_metrics span (zend_hash_str_update (st.spans span).metrics
    "_sampling_priority_v1" (.long priority))) span
    dd_sampling_mechanism.DD_MECHANISM_MANUAL (.long priority)
    (by simp [hroot, find_update_self])
  simpa [zval_get_long] using this

/-- C14: the manual override bypasses the decision.  On an active root span and
for a priority `p` that is neither `UNKNOWN` nor `UNSET`, `set_on_active_trace(p)`
returns; afterwards the metric `_sampling_priority_v1` is `p` and a following
get returns `p` without changing anything; the generator state and the limiter
state are unchanged; every other metric, `_dd.rule_psr` and `_dd.limit_psr`
among them, is unchanged; and the state is the one lines 25-37 of the tag
updater produce for the priority `p` and the mechanism `MANUAL`: no change when
`p` is the propagated priority, otherwise `_dd.p.dm` kept if present and set to
`"-4"` if absent when `p` is positive and not `UNSET`, and removed if not; no
other meta key changes. -/
theorem manual_override_bypasses_decision {R L : Type} (env : Env R L) (fuel : Nat)
    (st : State R L) (span : Nat) (p : Int)
    (hactive : st.root_span = some span) (hroot : (st.spans span).root = span)
    (hp1 : p ≠ env.DDTRACE_PRIORITY_SAMPLING_UNKNOWN)
    (hp2 : p ≠ env.DDTRACE_PRIORITY_SAMPLING_UNSET) :
    ∃ st' : State R L,
      ddtrace_set_prioritySampling_on_root env (fuel + 2) st p = some st' ∧
      zend_hash_str_find (st'.spans span).metrics "_sampling_priority_v1" = some (.long p) ∧
      ddtrace_fetch_prioritySampling_from_root env (fuel + 1) st' = some (p, st') ∧
      st'.mt19937 = st.mt19937 ∧ st'.limiter = st.limiter ∧
      (∀ key : String, key ≠ "_sampling_priority_v1" →
        zend_hash_str_find (st'.spans span).metrics key
          = zend_hash_str_find (st.spans span).metrics key) ∧
      st' = dd_update_decision_maker_tag_apply env
        (st.set_metrics span (zend_hash_str_update (st.spans span).metrics
          "_sampling_priority_v1" (.long p)))
        span dd_sampling_mechanism.DD_MECHANISM_MANUAL p ∧
      (st.propagated_priority_sampling = p → (st'.spans span).meta = (st.spans span).meta) ∧
      (st.propagated_priority_sampling ≠ p →
        (p > 0 ∧ p ≠ env.DDTRACE_PRIORITY_SAMPLING_UNSET) →
        zend_hash_str_find (st'.spans span).meta "_dd.p.dm" =
          match zend_hash_str_find (st.spans span).meta "_dd.p.dm" with
          | some tag => some tag
          | none => some (.string "-4")) ∧
      (st.propagated_priority_sampling ≠ p →
        ¬ (p > 0 ∧ p ≠ env.DDTRACE_PRIORITY_SAMPLING_UNSET) →
        zend_hash_str_find (st'.spans span).meta "_dd.p.dm" = none) ∧
      (∀ key : String, key ≠ "_dd.p.dm" →
        zend_hash_str_find (st'.spans span).meta key
          = zend_hash_str_find (st.spans span).meta key) := by
  have hset := set_root_override env fuel st span p hactive hroot hp1 hp2
  generalize hs1 : st.set_metrics span (zend_hash_str_update (st.spans span).metrics
    "_sampling_priority_v1" (.long p)) = s1 at hset ⊢
  have h1prop : s1.propagated_priority_sampling = st.propagated_priority_sampling := by
    rw [← hs1]; rfl
  have h1active : s1.root_span = some span := by rw [← hs1]; exact hactive
  have h1meta : (s1.spans span).meta = (st.spans span).meta := by rw [← hs1]; simp
  have h1metrics : (s1.spans span).metrics = zend_hash_str_update (st.spans span).metrics
      "_sampling_priority_v1" (.long p) := by rw [← hs1]; simp
  have h1rng : s1.mt19937 = st.mt19937 := by rw [← hs1]; rfl
  have h1lim : s1.limiter = st.limiter := by rw [← hs1]; rfl
  have hstored : zend_hash_str_find ((dd_update_decision_maker_tag_apply env s1 span
      dd_sampling_mechanism.DD_MECHANISM_MANUAL p).spans span).metrics
      "_sampling_priority_v1" = some (.long p) := by
    rw [apply_metrics, h1metrics, find_update_self]
  refine ⟨_, hset, hstored, ?_, ?_, ?_, ?_, rfl, ?_, ?_, ?_, ?_⟩
  · have hrs : (dd_update_decision_maker_tag_apply env s1 span
        dd_sampling_mechanism.DD_MECHANISM_MANUAL p).root_span = some span := by
      rw [(apply_globals env s1 span _ p).2.2.1]
      exact h1active
    simp only [ddtrace_fetch_prioritySampling_from_root, hrs]
    have := fetch_found env fuel _ span (.long p) hstored
    simpa only [zval_get_long] using this
  · rw [(apply_globals env s1 span _ p).1, h1rng]
  · rw [(apply_globals env s1 span _ p).2.1, h1lim]
  · intro key hkey
    rw [apply_metrics, h1metrics, find_update_ne _ _ _ _ hkey]
  · intro hprop
    rw [apply_same_priority env s1 span _ p (by rw [h1prop]; exact hprop), h1meta]
  · intro hprop hkeep
    rw [apply_keep env s1 span _ p (by rw [h1prop]; exact hprop) hkeep, h1meta]
    rfl
  · intro hprop hkeep
    rw [apply_not_keep env s1 span _ p (by rw [h1prop]; exact hprop) hkeep]
  · intro key hkey
    rw [apply_meta_other_key env s1 span _ p key hkey, h1meta]

theorem manual_override_bypasses_decision_witness :
    (sample_state .null [("_dd.rule_psr", .double (.finite 1))] [] 0x40000000
      0x40000001).root_span = some 0 ∧
    ((sample_state .null [("_dd.rule_psr", .double (.finite 1))] [] 0x40000000
      0x40000001).spans 0).root = 0 ∧
    (2 : Int) ≠ (sample_env [] (-1) (.finite 1) 7 true
      true).DDTRACE_PRIORITY_SAMPLING_UNKNOWN ∧
    (2 : Int) ≠ (sample_env [] (-1) (.finite 1) 7 true true).DDTRACE_PRIORITY_SAMPLING_UNSET ∧
    ∃ st' : State Nat Nat,
      ddtrace_set_prioritySampling_on_root (sample_env [] (-1) (.finite 1) 7 true true) 2
        (sample_state .null [("_dd.rule_psr", .double (.finite 1))] [] 0x40000000 0x40000001)
        2 = some st' ∧
      zend_hash_str_find (st'.spans 0).metrics "_sampling_priority_v1" = some (.long 2) ∧
      st'.mt19937 = 0 ∧ st'.limiter = 0 ∧
      zend_hash_str_find (st'.spans 0).metrics "_dd.rule_psr"
        = some (.double (.finite 1)) ∧
      zend_hash_str_find (st'.spans 0).meta "_dd.p.dm" = some (.string "-4") := by
  refine ⟨rfl, rfl, by decide, by decide, ?_⟩
  obtain ⟨st', h1, h2, _, h4, h5, h6, _, _, h9, _⟩ := manual_override_bypasses_decision
    (sample_env [] (-1) (.finite 1) 7 true true) 0
    (sample_state .null [("_dd.rule_psr", .double (.finite 1))] [] 0x40000000 0x40000001)
    0 2 rfl rfl (by decide) (by decide)
  refine ⟨st', h1, h2, h4, h5, ?_, ?_⟩
  · rw [h6 "_dd.rule_psr" (by decide)]
    rfl
  · rw [h9 (by decide) (by decide)]
    rfl

/-! ## C15: reset and new decision -/

/-- The reset: the mutator with `UNSET` or `UNKNOWN` on an active root span. -/
theorem set_root_reset {R L : Type} (env : Env R L) (fuel : Nat) (st : State R L)
    (span : Nat) (priority : Int) (hactive : st.root_span = some span)
    (hp : priority = env.DDTRACE_PRIORITY_SAMPLING_UNKNOWN ∨
      priority = env.DDTRACE_PRIORITY_SAMPLING_UNSET) :
    ddtrace_set_prioritySampling_on_root env fuel st priority =
      some (st.set_metrics span
        (zend_hash_str_del (st.spans span).metrics "_sampling_priority_v1")) := by
  unfold ddtrace_set_prioritySampling_on_root
  simp only [hactive]
  rw [if_pos hp]

/-- C15 as the claim states it fails on this input: the process default
priority is `UNSET` and the root span is fresh.  `set_on_active_trace(2)`
decides the priority `2` (stored, tag `"-4"`); `set_on_active_trace(UNSET)`
removes the metric; the get that follows finds no priority, finds the default
`UNSET` at line 140 and returns `UNKNOWN` without deciding, for every recursion
budget: no priority is stored. -/
theorem reset_with_unset_default_counterexample :
    ∃ st1 st2 : State Nat Nat,
      fresh_root_span (sample_state .null [] [] 0x40000001 0x40000001) 0 ∧
      (sample_state .null [] [] 0x40000001 0x40000001).default_priority_sampling
        = (sample_env [] (-1) (.finite 1) 7 false true).DDTRACE_PRIORITY_SAMPLING_UNSET ∧
      ddtrace_set_prioritySampling_on_root (sample_env [] (-1) (.finite 1) 7 false true) 2
        (sample_state .null [] [] 0x40000001 0x40000001) 2 = some st1 ∧
      zend_hash_str_find (st1.spans 0).metrics "_sampling_priority_v1" = some (.long 2) ∧
      zend_hash_str_find (st1.spans 0).meta "_dd.p.dm" = some (.string "-4") ∧
      ddtrace_set_prioritySampling_on_root (sample_env [] (-1) (.finite 1) 7 false true) 2
        st1 0x40000001 = some st2 ∧
      zend_hash_str_find (st2.spans 0).metrics "_sampling_priority_v1" = none ∧
      (∀ fuel : Nat,
        ddtrace_fetch_prioritySampling_from_root (sample_env [] (-1) (.finite 1) 7 false true)
          (fuel + 1) st2 = some (0x40000000, st2)) ∧
      (∀ fuel : Nat,
        ddtrace_fetch_prioritySampling_from_span (sample_env [] (-1) (.finite 1) 7 false true)
          (fuel + 1) st2 0 = some (0x40000000, st2)) := by
  have hset := set_root_override (sample_env [] (-1) (.finite 1) 7 false true) 0
    (sample_state .null [] [] 0x40000001 0x40000001) 0 2 rfl rfl (by decide) (by decide)
  generalize hs1 : dd_update_decision_maker_tag_apply
    (sample_env [] (-1) (.finite 1) 7 false true)
    ((sample_state .null [] [] 0x40000001 0x40000001).set_metrics 0
      (zend_hash_str_update ((sample_state .null [] [] 0x40000001 0x40000001).spans 0).metrics
        "_sampling_priority_v1" (.long 2)))
    0 dd_sampling_mechanism.DD_MECHANISM_MANUAL 2 = s1 at hset
  have h1active : s1.root_span = some 0 := by
    rw [← hs1, (apply_globals _ _ _ _ _).2.2.1]
    rfl
  have h1default : s1.default_priority_sampling = 0x40000001 := by
    rw [← hs1, (apply_globals _ _ _ _ _).2.2.2.1]
    rfl
  have h1metric : zend_hash_str_find (s1.spans 0).metrics "_sampling_priority_v1"
      = some (.long 2) := by
    rw [← hs1, apply_metrics]
    rfl
  have h1tag : zend_hash_str_find (s1.spans 0).meta "_dd.p.dm" = some (.string "-4") := by
    rw [← hs1, apply_keep _ _ _ _ _ (by decide) (by decide)]
    rfl
  have hreset := set_root_reset (sample_env [] (-1) (.finite 1) 7 false true) 2 s1 0
    0x40000001 h1active (Or.inr rfl)
  have h2metric : zend_hash_str_find ((s1.set_metrics 0 (zend_hash_str_del
      (s1.spans 0).metrics "_sampling_priority_v1")).spans 0).metrics
      "_sampling_priority_v1" = none := by
    simp [find_del_self]
  have hget : ∀ fuel : Nat,
      ddtrace_fetch_prioritySampling_from_span (sample_env [] (-1) (.finite 1) 7 false true)
        (fuel + 1) (s1.set_metrics 0 (zend_hash_str_del (s1.spans 0).metrics
          "_sampling_priority_v1")) 0
        = some (0x40000000, s1.set_metrics 0 (zend_hash_str_del (s1.spans 0).metrics
          "_sampling_priority_v1")) := by
    intro fuel
    exact fetch_unset _ fuel _ 0 h2metric h1default
  refine ⟨s1, _, ⟨rfl, rfl, rfl, rfl⟩, rfl, hset, h1metric, h1tag, hreset, h2metric, ?_, hget⟩
  intro fuel
  have hactive2 : (s1.set_metrics 0 (zend_hash_str_del (s1.spans 0).metrics
      "_sampling_priority_v1")).root_span = some 0 := h1active
  simp only [ddtrace_fetch_prioritySampling_from_root, hactive2]
  exact hget fuel

/-- C15, amended: reset and re-decide.  On an active root span
`set_on_active_trace(UNSET)`, and likewise with `UNKNOWN`, returns and leaves
the root metrics without `_sampling_priority_v1`, whatever was stored.  When the
process default priority is not `UNSET`, a following get (from the active trace
or on the root span) runs the decision again: the state it returns is the one
`dd_decide_on_sampling` returns, and it stores the priority that the get
returns.  When the process default priority is `UNSET`, the following get
returns `UNKNOWN` and changes nothing: no priority is stored. -/
theorem reset_then_get {R L : Type} (env : Env R L) (fuel : Nat) (st : State R L)
    (span : Nat) (q : Int)
    (hactive : st.root_span = some span) (hroot : (st.spans span).root = span)
    (hq : q = env.DDTRACE_PRIORITY_SAMPLING_UNKNOWN ∨
      q = env.DDTRACE_PRIORITY_SAMPLING_UNSET) :
    ∃ st1 : State R L,
      ddtrace_set_prioritySampling_on_root env fuel st q = some st1 ∧
      zend_hash_str_find (st1.spans span).metrics "_sampling_priority_v1" = none ∧
      (st.default_priority_sampling ≠ env.DDTRACE_PRIORITY_SAMPLING_UNSET →
        ∃ (p : Int) (st2 : State R L),
          ddtrace_fetch_prioritySampling_from_root env (fuel + 4) st1 = some (p, st2) ∧
          ddtrace_fetch_prioritySampling_from_span env (fuel + 4) st1 span = some (p, st2) ∧
          dd_decide_on_sampling env (fuel + 3) st1 span = some st2 ∧
          zend_hash_str_find (st2.spans span).metrics "_sampling_priority_v1"
            = some (.long p)) ∧
      (st.default_priority_sampling = env.DDTRACE_PRIORITY_SAMPLING_UNSET →
        ddtrace_fetch_prioritySampling_from_root env (fuel + 1) st1
          = some (env.DDTRACE_PRIORITY_SAMPLING_UNKNOWN, st1) ∧
        ddtrace_fetch_prioritySampling_from_span env (fuel + 1) st1 span
          = some (env.DDTRACE_PRIORITY_SAMPLING_UNKNOWN, st1)) := by
  have hset := set_root_reset env fuel st span q hactive hq
  have hnone : zend_hash_str_find ((st.set_metrics span (zend_hash_str_del
      (st.spans span).metrics "_sampling_priority_v1")).spans span).metrics
      "_sampling_priority_v1" = none := by
    simp [find_del_self]
  have hrs1 : (st.set_metrics span (zend_hash_str_del (st.spans span).metrics
      "_sampling_priority_v1")).root_span = some span := hactive
  refine ⟨_, hset, hnone, ?_, ?_⟩
  · intro hd
    obtain ⟨p, hp, hdec, hfetch⟩ := fetch_decide_root env fuel
      (st.set_metrics span (zend_hash_str_del (st.spans span).metrics
        "_sampling_priority_v1"))
      span (by simpa using hroot) hnone hd
    refine ⟨p, _, ?_, hfetch, hdec, by rw [apply_metrics]; exact hp⟩
    simp only [ddtrace_fetch_prioritySampling_from_root, hrs1]
    exact hfetch
  · intro hd
    have hfetch := fetch_unset env fuel
      (st.set_metrics span (zend_hash_str_del (st.spans span).metrics
        "_sampling_priority_v1")) span hnone hd
    refine ⟨?_, hfetch⟩
    simp only [ddtrace_fetch_prioritySampling_from_root, hrs1]
    exact hfetch

theorem reset_then_get_witness :
    (sample_state (.string "payments") [("_sampling_priority_v1", .long 2)] [] 0x40000000
      0x40000001).root_span = some 0 ∧
    ((sample_state (.string "payments") [("_sampling_priority_v1", .long 2)] [] 0x40000000
      0x40000001).spans 0).root = 0 ∧
    ((0x40000001 : Int) = (sample_env [payments_rule] (-1) (.finite 1) 7 false
        true).DDTRACE_PRIORITY_SAMPLING_UNKNOWN ∨
      (0x40000001 : Int) = (sample_env [payments_rule] (-1) (.finite 1) 7 false
        true).DDTRACE_PRIORITY_SAMPLING_UNSET) ∧
    ∃ st1 : State Nat Nat,
      ddtrace_set_prioritySampling_on_root
        (sample_env [payments_rule] (-1) (.finite 1) 7 false true) 0
        (sample_state (.string "payments") [("_sampling_priority_v1", .long 2)] []
          0x40000000 0x40000001) 0x40000001 = some st1 ∧
      zend_hash_str_find (st1.spans 0).metrics "_sampling_priority_v1" = none ∧
      ∃ (p : Int) (st2 : State Nat Nat),
        ddtrace_fetch_prioritySampling_from_root
          (sample_env [payments_rule] (-1) (.finite 1) 7 false true) 4 st1 = some (p, st2) ∧
        zend_hash_str_find (st2.spans 0).metrics "_sampling_priority_v1"
          = some (.long p) := by
  obtain ⟨st1, h1, h2, h3, _⟩ := reset_then_get
    (sample_env [payments_rule] (-1) (.finite 1) 7 false true) 0
    (sample_state (.string "payments") [("_sampling_priority_v1", .long 2)] [] 0x40000000
      0x40000001) 0 0x40000001 rfl rfl (Or.inr rfl)
  obtain ⟨p, st2, h4, _, _, h7⟩ := h3 (by decide)
  exact ⟨rfl, rfl, Or.inr rfl, st1, h1, h2, p, st2, h4, h7⟩

/-! ## C16: no active root span -/

/-- C16: a missing root span degrades safely.  When there is no active root
span, `get_from_active_trace` returns `UNKNOWN` if the process default priority
is `UNSET` and the process default priority otherwise, `set_on_active_trace(p)`
does nothing for every `p`, and both return the state they were given: no
draw, no call of the limiter, no metric or tag written.  No recursion budget is
needed. -/
theorem missing_root_span_is_safe {R L : Type} (env : Env R L) (fuel : Nat) (st : State R L)
    (hmissing : st.root_span = none) :
    (st.default_priority_sampling = env.DDTRACE_PRIORITY_SAMPLING_UNSET →
      ddtrace_fetch_prioritySampling_from_root env fuel st
        = some (env.DDTRACE_PRIORITY_SAMPLING_UNKNOWN, st)) ∧
    (st.default_priority_sampling ≠ env.DDTRACE_PRIORITY_SAMPLING_UNSET →
      ddtrace_fetch_prioritySampling_from_root env fuel st
        = some (st.default_priority_sampling, st)) ∧
    (∀ p : Int, ddtrace_set_prioritySampling_on_root env fuel st p = some st) := by
  refine ⟨?_, ?_, ?_⟩
  · intro hd
    unfold ddtrace_fetch_prioritySampling_from_root
    simp only [hmissing]
    rw [if_pos hd]
  · intro hd
    unfold ddtrace_fetch_prioritySampling_from_root
    simp only [hmissing]
    rw [if_neg hd]
  · intro p
    unfold ddtrace_set_prioritySampling_on_root
    simp only [hmissing]

theorem missing_root_span_is_safe_witness :
    ({ sample_state .null [] [] 2 0x40000001 with root_span := none } :
      State Nat Nat).root_span = none ∧
    ddtrace_fetch_prioritySampling_from_root (sample_env [] (-1) (.finite 1) 7 true true) 0
      { sample_state .null [] [] 2 0x40000001 with root_span := none }
      = some (2, { sample_state .null [] [] 2 0x40000001 with root_span := none }) ∧
    ddtrace_set_prioritySampling_on_root (sample_env [] (-1) (.finite 1) 7 true true) 0
      { sample_state .null [] [] 2 0x40000001 with root_span := none } 1
      = some { sample_state .null [] [] 2 0x40000001 with root_span := none } :=
  ⟨rfl,
    (missing_root_span_is_safe (sample_env [] (-1) (.finite 1) 7 true true) 0
      { sample_state .null [] [] 2 0x40000001 with root_span := none } rfl).2.1 (by decide),
    (missing_root_span_is_safe (sample_env [] (-1) (.finite 1) 7 true true) 0
      { sample_state .null [] [] 2 0x40000001 with root_span := none } rfl).2.2 1⟩

/-! ## C17: a concrete process default priority -/

/-- Lines 61-120 when the default, converted to `int` at line 61, is not
`UNKNOWN`: the converted default is stored, the mechanism is `MANUAL`, and
nothing else is touched. -/
theorem store_concrete {R L : Type} (env : Env R L) (st : State R L) (span : Nat)
    (hdefault : zend_long_to_int st.default_priority_sampling ≠ env.DDTRACE_PRIORITY_SAMPLING_UNKNOWN) :
    dd_decide_on_sampling_store env st span =
      (st.set_metrics span (zend_hash_str_update (st.spans span).metrics
        "_sampling_priority_v1" (.long (zend_long_to_int st.default_priority_sampling))),
        dd_sampling_mechanism.DD_MECHANISM_MANUAL) := by
  simp only [dd_decide_on_sampling_store, hdefault, if_false]

/-- C17 fails on the code at these inputs.  The process default priority is
`4294967298` (`2 ^ 32 + 2`), which is neither `UNKNOWN` nor `UNSET`; the root
span is fresh.  Line 61 copies the default into `int priority`, so that the
decision stores `_sampling_priority_v1 = 2` and the get returns `2`, not the
default; the sibling path of line 130 (no root span) returns the default
itself.  With the default `5368709120` (`2 ^ 32 + UNKNOWN`), again neither
`UNKNOWN` nor `UNSET`, the `int` is `UNKNOWN` and the probabilistic logic runs:
the generator is drawn from once, `allow()` is called once, and `_dd.rule_psr`
and `_dd.limit_psr` are written. -/
theorem concrete_default_narrowed_to_int :
    (∃ st1 : State Nat Nat,
      (sample_state (.string "payments") [] [] 4294967298 0x40000001).default_priority_sampling
        ≠ (sample_env [payments_rule] 0 (.finite 1) 7 true false).DDTRACE_PRIORITY_SAMPLING_UNKNOWN ∧
      (sample_state (.string "payments") [] [] 4294967298 0x40000001).default_priority_sampling
        ≠ (sample_env [payments_rule] 0 (.finite 1) 7 true false).DDTRACE_PRIORITY_SAMPLING_UNSET ∧
      dd_decide_on_sampling (sample_env [payments_rule] 0 (.finite 1) 7 true false) 3
        (sample_state (.string "payments") [] [] 4294967298 0x40000001) 0 = some st1 ∧
      ddtrace_fetch_prioritySampling_from_span
        (sample_env [payments_rule] 0 (.finite 1) 7 true false) 4
        (sample_state (.string "payments") [] [] 4294967298 0x40000001) 0 = some (2, st1) ∧
      zend_hash_str_find (st1.spans 0).metrics "_sampling_priority_v1" = some (.long 2) ∧
      st1.default_priority_sampling = 4294967298 ∧
      ddtrace_fetch_prioritySampling_from_root
        (sample_env [payments_rule] 0 (.finite 1) 7 true false) 4
        { sample_state (.string "payments") [] [] 4294967298 0x40000001 with root_span := none }
        = some (4294967298,
          { sample_state (.string "payments") [] [] 4294967298 0x40000001 with
            root_span := none })) ∧
    (∃ st2 : State Nat Nat,
      (sample_state (.string "payments") [] [] 5368709120 0x40000001).default_priority_sampling
        ≠ (sample_env [payments_rule] 0 (.finite 1) 7 true false).DDTRACE_PRIORITY_SAMPLING_UNKNOWN ∧
      (sample_state (.string "payments") [] [] 5368709120 0x40000001).default_priority_sampling
        ≠ (sample_env [payments_rule] 0 (.finite 1) 7 true false).DDTRACE_PRIORITY_SAMPLING_UNSET ∧
      dd_decide_on_sampling (sample_env [payments_rule] 0 (.finite 1) 7 true false) 3
        (sample_state (.string "payments") [] [] 5368709120 0x40000001) 0 = some st2 ∧
      (sample_state (.string "payments") [] [] 5368709120 0x40000001).mt19937 = 0 ∧
      st2.mt19937 = 1 ∧
      (sample_state (.string "payments") [] [] 5368709120 0x40000001).limiter = 0 ∧
      st2.limiter = 1 ∧
      zend_hash_str_find (st2.spans 0).metrics "_dd.rule_psr" = some (.double (.finite 1)) ∧
      zend_hash_str_find (st2.spans 0).metrics "_dd.limit_psr"
        = some (.double (.finite (1 / 2))) ∧
      zend_hash_str_find (st2.spans 0).metrics "_sampling_priority_v1"
        = some (.long (-1))) := by
  have hint1 : zend_long_to_int 4294967298 = 2 := by decide
  have hint2 : zend_long_to_int 5368709120 = 0x40000000 := by decide
  constructor
  · obtain ⟨p, hp, hdec, hfetch⟩ := fetch_decide_root
      (sample_env [payments_rule] 0 (.finite 1) 7 true false) 0
      (sample_state (.string "payments") [] [] 4294967298 0x40000001) 0 rfl rfl (by decide)
    have hne : zend_long_to_int
        (sample_state (.string "payments") [] [] 4294967298 0x40000001).default_priority_sampling
        ≠ (sample_env [payments_rule] 0 (.finite 1) 7 true
          false).DDTRACE_PRIORITY_SAMPLING_UNKNOWN := by
      show zend_long_to_int 4294967298 ≠ 0x40000000
      rw [hint1]
      decide
    have hstore := store_priority_concrete _ _ 0 hne
    have hp2 : p = 2 := by
      rw [hstore] at hp
      simp only [Option.some.injEq, Zval.long.injEq] at hp
      rw [← hp]
      exact hint1
    subst hp2
    refine ⟨_, by decide, by decide, hdec, hfetch, ?_, ?_, rfl⟩
    · rw [apply_metrics]
      exact hp
    · rw [(apply_globals _ _ _ _ _).2.2.2.1, (store_globals _ _ _).2.1]
      rfl
  · obtain ⟨p, hp, hdec⟩ := decide_root
      (sample_env [payments_rule] 0 (.finite 1) 7 true false) 0
      (sample_state (.string "payments") [] [] 5368709120 0x40000001) 0 rfl
    have heq : zend_long_to_int
        (sample_state (.string "payments") [] [] 5368709120 0x40000001).default_priority_sampling
        = (sample_env [payments_rule] 0 (.finite 1) 7 true
          false).DDTRACE_PRIORITY_SAMPLING_UNKNOWN := hint2
    have hloop : dd_sampling_rules_loop (sample_env [payments_rule] 0 (.finite 1) 7 true false)
        ((sample_state (.string "payments") [] [] 5368709120 0x40000001).spans 0)
        (sample_env [payments_rule] 0 (.finite 1) 7 true false).get_DD_TRACE_SAMPLING_RULES
        ((sample_env [payments_rule] 0 (.finite 1) 7 true false).get_DD_TRACE_SAMPLE_RATE,
          decide ((sample_env [payments_rule] 0 (.finite 1) 7 true
            false).sample_rate_name_index ≥ 0))
        = (.finite 1, true) := by
      simp [dd_sampling_rules_loop, payments_rule, zend_hash_str_find, dd_rule_matches,
        sample_env, sample_state, zval_get_double]
    have htest : dd_sampling_test 7 (.finite 1) = true := by
      rw [sampling_test_rate_one]
      decide
    refine ⟨_, by decide, by decide, hdec, rfl, ?_, rfl, ?_, ?_, ?_, ?_⟩
    · rw [(apply_globals _ _ _ _ _).1, store_mt19937, if_pos heq]
      rfl
    · rw [(apply_globals _ _ _ _ _).2.1, store_limiter, if_pos heq, hloop]
      simp [sample_env, sample_state, htest]
    · rw [apply_metrics, store_rule_psr _ _ _ heq, hloop]
    · rw [apply_metrics, store_limit_psr _ _ _ heq, hloop]
      simp [sample_env, sample_state, htest]
    · rw [apply_metrics, store_priority_probabilistic _ _ _ heq]
      simp only [hloop]
      simp [sample_env, sample_state, htest]

/-! ## C18: the limiter is a secondary cap -/

/-- C18: the limiter is a secondary cap only.  The decision on a root span
returns.  Its limiter state is the state after one call of `allow()` when the
probabilistic path runs, the limiter reports itself active and the sampler said
keep, and it is the limiter state before the call in every other case: `allow()`
is called at most once, and only then.  When the sampler said drop the priority
stored is the reject value (`USER_REJECT` for a rule-based decision,
`AUTO_REJECT` otherwise) whatever the limiter is; when the limiter is inactive
the priority stored is the sampler's answer alone.  The probabilistic path is
the one on which the default priority, converted to `int` at line 61, is
`UNKNOWN`. -/
theorem limiter_is_secondary_cap {R L : Type} (env : Env R L) (fuel : Nat) (st : State R L)
    (span : Nat) (hroot : (st.spans span).root = span) :
    ∃ st' : State R L,
      dd_decide_on_sampling env (fuel + 3) st span = some st' ∧
      st'.limiter =
        (if zend_long_to_int st.default_priority_sampling = env.DDTRACE_PRIORITY_SAMPLING_UNKNOWN ∧
            env.ddtrace_limiter_active st.limiter = true ∧
            dd_sampling_test (env.genrand64_int64 st.mt19937).1
              (dd_sampling_rules_loop env (st.spans span) env.get_DD_TRACE_SAMPLING_RULES
                (env.get_DD_TRACE_SAMPLE_RATE,
                  decide (env.sample_rate_name_index ≥ 0))).1 = true
          then (env.ddtrace_limiter_allow st.limiter).2
          else st.limiter) ∧
      (zend_long_to_int st.default_priority_sampling = env.DDTRACE_PRIORITY_SAMPLING_UNKNOWN →
        dd_sampling_test (env.genrand64_int64 st.mt19937).1
          (dd_sampling_rules_loop env (st.spans span) env.get_DD_TRACE_SAMPLING_RULES
            (env.get_DD_TRACE_SAMPLE_RATE, decide (env.sample_rate_name_index ≥ 0))).1
          = false →
        zend_hash_str_find (st'.spans span).metrics "_sampling_priority_v1" = some (.long
          (if (dd_sampling_rules_loop env (st.spans span) env.get_DD_TRACE_SAMPLING_RULES
              (env.get_DD_TRACE_SAMPLE_RATE, decide (env.sample_rate_name_index ≥ 0))).2
            then env.PRIORITY_SAMPLING_USER_REJECT
            else env.PRIORITY_SAMPLING_AUTO_REJECT))) ∧
      (zend_long_to_int st.default_priority_sampling = env.DDTRACE_PRIORITY_SAMPLING_UNKNOWN →
        env.ddtrace_limiter_active st.limiter = false →
        zend_hash_str_find (st'.spans span).metrics "_sampling_priority_v1" = some (.long
          (if (dd_sampling_rules_loop env (st.spans span) env.get_DD_TRACE_SAMPLING_RULES
              (env.get_DD_TRACE_SAMPLE_RATE, decide (env.sample_rate_name_index ≥ 0))).2
            then
              (if dd_sampling_test (env.genrand64_int64 st.mt19937).1
                  (dd_sampling_rules_loop env (st.spans span) env.get_DD_TRACE_SAMPLING_RULES
                    (env.get_DD_TRACE_SAMPLE_RATE,
                      decide (env.sample_rate_name_index ≥ 0))).1
                then env.PRIORITY_SAMPLING_USER_KEEP else env.PRIORITY_SAMPLING_USER_REJECT)
            else
              (if dd_sampling_test (env.genrand64_int64 st.mt19937).1
                  (dd_sampling_rules_loop env (st.spans span) env.get_DD_TRACE_SAMPLING_RULES
                    (env.get_DD_TRACE_SAMPLE_RATE,
                      decide (env.sample_rate_name_index ≥ 0))).1
                then env.PRIORITY_SAMPLING_AUTO_KEEP
                else env.PRIORITY_SAMPLING_AUTO_REJECT)))) := by
  obtain ⟨q, _, hdec⟩ := decide_root env fuel st span hroot
  refine ⟨_, hdec, ?_, ?_, ?_⟩
  · rw [(apply_globals env _ span _ q).2.1, store_limiter]
    by_cases hd : zend_long_to_int st.default_priority_sampling = env.DDTRACE_PRIORITY_SAMPLING_UNKNOWN
    · simp only [hd, if_true, true_and, Bool.and_eq_true]
    · simp only [hd, if_false, false_and]
  · intro hd hsm
    rw [apply_metrics, store_priority_probabilistic env st span hd]
    simp only [hsm]
    simp
  · intro hd hac
    rw [apply_metrics, store_priority_probabilistic env st span hd]
    simp only [hac]
    simp

theorem limiter_is_secondary_cap_witness :
    ((sample_state (.string "payments") [] [] 0x40000000 0x40000001).spans 0).root = 0 ∧
    ∃ st' : State Nat Nat,
      dd_decide_on_sampling (sample_env [zero_rule] (-1) (.finite 1) 7 true true) 3
        (sample_state (.string "payments") [] [] 0x40000000 0x40000001) 0 = some st' ∧
      st'.limiter = 0 ∧
      zend_hash_str_find (st'.spans 0).metrics "_sampling_priority_v1"
        = some (.long (-1)) := by
  refine ⟨rfl, ?_⟩
  have hloop : dd_sampling_rules_loop (sample_env [zero_rule] (-1) (.finite 1) 7 true true)
      ((sample_state (.string "payments") [] [] 0x40000000 0x40000001).spans 0)
      (sample_env [zero_rule] (-1) (.finite 1) 7 true true).get_DD_TRACE_SAMPLING_RULES
      ((sample_env [zero_rule] (-1) (.finite 1) 7 true true).get_DD_TRACE_SAMPLE_RATE,
        decide ((sample_env [zero_rule] (-1) (.finite 1) 7 true true).sample_rate_name_index
          ≥ 0)) = (.finite 0, true) := by
    simp [dd_sampling_rules_loop, zero_rule, zend_hash_str_find, dd_rule_matches,
      sample_env, sample_state, zval_get_double]
  obtain ⟨st', h1, h2, h3, _⟩ := limiter_is_secondary_cap
    (sample_env [zero_rule] (-1) (.finite 1) 7 true true) 0
    (sample_state (.string "payments") [] [] 0x40000000 0x40000001) 0 rfl
  rw [hloop] at h2 h3
  refine ⟨st', h1, ?_, ?_⟩
  · rw [h2]
    simp only [sampling_test_rate_zero]
    simp
    rfl
  · rw [h3 rfl (sampling_test_rate_zero _)]
    rfl

/-! ## C19: malformed rule entries -/

theorem spec_rule_rate_malformed {R L : Type} (env : Env R L) (span : ddtrace_span_data)
    (rule : Zval) (h : spec_rule_well_formed rule = false) :
    spec_rule_rate env span rule = none := by
  cases rule with
  | array ht =>
    simp only [spec_rule_well_formed] at h
    have hnone : zend_hash_str_find ht "sample_rate" = none := by
      cases hf : zend_hash_str_find ht "sample_rate" with
      | none => rfl
      | some z => rw [hf] at h; simp at h
    simp only [spec_rule_rate, hnone]
    split_ifs <;> rfl
  | _ => rfl

theorem rules_loop_filter {R L : Type} (env : Env R L) (span : ddtrace_span_data)
    (rules : List Zval) (acc : CDouble × Bool) :
    dd_sampling_rules_loop env span (rules.filter spec_rule_well_formed) acc
      = dd_sampling_rules_loop env span rules acc := by
  induction rules with
  | nil => rfl
  | cons rule rest ih =>
    by_cases h : spec_rule_well_formed rule = true
    · rw [List.filter_cons_of_pos h, rules_loop_cons, rules_loop_cons, ih]
    · have h' : spec_rule_well_formed rule = false := by simpa using h
      rw [List.filter_cons_of_neg h, rules_loop_cons env span rule,
        spec_rule_rate_malformed env span rule h', ih]

/-- The loop reads the environment only through the matcher and the conversion
to `double`: the configured rule list does not matter to it. -/
theorem rules_loop_other_rules {R L : Type} (env : Env R L) (configured : List Zval)
    (span : ddtrace_span_data) (rules : List Zval) (acc : CDouble × Bool) :
    dd_sampling_rules_loop { env with get_DD_TRACE_SAMPLING_RULES := configured } span rules acc
      = dd_sampling_rules_loop env span rules acc := by
  induction rules with
  | nil => rfl
  | cons rule rest ih =>
    rw [rules_loop_cons, rules_loop_cons, ih]
    rfl

theorem store_filtered_rules {R L : Type} (env : Env R L) (st : State R L) (span : Nat) :
    dd_decide_on_sampling_store
      { env with get_DD_TRACE_SAMPLING_RULES :=
          env.get_DD_TRACE_SAMPLING_RULES.filter spec_rule_well_formed } st span
      = dd_decide_on_sampling_store env st span := by
  have hloop : dd_sampling_rules_loop
      { env with get_DD_TRACE_SAMPLING_RULES :=
          env.get_DD_TRACE_SAMPLING_RULES.filter spec_rule_well_formed }
      (st.spans span) (env.get_DD_TRACE_SAMPLING_RULES.filter spec_rule_well_formed)
      (env.get_DD_TRACE_SAMPLE_RATE, decide (env.sample_rate_name_index ≥ 0))
      = dd_sampling_rules_loop env (st.spans span) env.get_DD_TRACE_SAMPLING_RULES
        (env.get_DD_TRACE_SAMPLE_RATE, decide (env.sample_rate_name_index ≥ 0)) := by
    rw [rules_loop_other_rules, rules_loop_filter]
  simp only [dd_decide_on_sampling_store]
  rw [hloop]

/-- C19: malformed rule entries are skipped.  An entry that is not a rule
object, and a rule without a `sample_rate` field, never ends the loop: the loop
goes on with the entries that follow, and its result is the result on the list
from which all such entries are deleted.  On a root span the decision returns
on both lists, with the same state (stored priority, `_dd.rule_psr` and all
else) and the same mechanism. -/
theorem malformed_rules_are_skipped {R L : Type} (env : Env R L) (fuel : Nat) (st : State R L)
    (span : Nat) (hroot : (st.spans span).root = span) :
    (∀ (sp : ddtrace_span_data) (rule : Zval) (rest : List Zval) (acc : CDouble × Bool),
      spec_rule_well_formed rule = false →
      dd_sampling_rules_loop env sp (rule :: rest) acc
        = dd_sampling_rules_loop env sp rest acc) ∧
    (∀ (sp : ddtrace_span_data) (rules : List Zval) (acc : CDouble × Bool),
      dd_sampling_rules_loop env sp (rules.filter spec_rule_well_formed) acc
        = dd_sampling_rules_loop env sp rules acc) ∧
    ∃ st' : State R L,
      dd_decide_on_sampling env (fuel + 3) st span = some st' ∧
      dd_decide_on_sampling
        { env with get_DD_TRACE_SAMPLING_RULES :=
            env.get_DD_TRACE_SAMPLING_RULES.filter spec_rule_well_formed }
        (fuel + 3) st span = some st' ∧
      (dd_decide_on_sampling_store
        { env with get_DD_TRACE_SAMPLING_RULES :=
            env.get_DD_TRACE_SAMPLING_RULES.filter spec_rule_well_formed } st span).2
        = (dd_decide_on_sampling_store env st span).2 := by
  refine ⟨?_, rules_loop_filter env, ?_⟩
  · intro sp rule rest acc h
    rw [rules_loop_cons, spec_rule_rate_malformed env sp rule h]
  · obtain ⟨p, hp, hdec⟩ := decide_root env fuel st span hroot
    obtain ⟨p', hp', hdec'⟩ := decide_root
      { env with get_DD_TRACE_SAMPLING_RULES :=
          env.get_DD_TRACE_SAMPLING_RULES.filter spec_rule_well_formed } fuel st span hroot
    rw [store_filtered_rules] at hp' hdec'
    rw [hp] at hp'
    simp only [Option.some.injEq, Zval.long.injEq] at hp'
    subst hp'
    exact ⟨_, hdec, hdec', by rw [store_filtered_rules]⟩

theorem malformed_rules_are_skipped_witness :
    ((sample_state (.string "payments") [] [] 0x40000000 0x40000001).spans 0).root = 0 ∧
    dd_sampling_rules_loop
      (sample_env [.long 3, .array [("service", .string "payments")], payments_rule] (-1)
        (.finite (1 / 5)) 7 false true)
      ((sample_state (.string "payments") [] [] 0x40000000 0x40000001).spans 0)
      [.long 3, .array [("service", .string "payments")], payments_rule]
      (.finite (1 / 5), false) = (.finite 1, true) ∧
    ∃ st' : State Nat Nat,
      dd_decide_on_sampling
        (sample_env [.long 3, .array [("service", .string "payments")], payments_rule] (-1)
          (.finite (1 / 5)) 7 false true) 3
        (sample_state (.string "payments") [] [] 0x40000000 0x40000001) 0 = some st' ∧
      dd_decide_on_sampling (sample_env [payments_rule] (-1) (.finite (1 / 5)) 7 false true) 3
        (sample_state (.string "payments") [] [] 0x40000000 0x40000001) 0 = some st' := by
  obtain ⟨h1, h2, st', h3, h4, _⟩ := malformed_rules_are_skipped
    (sample_env [.long 3, .array [("service", .string "payments")], payments_rule] (-1)
      (.finite (1 / 5)) 7 false true) 0
    (sample_state (.string "payments") [] [] 0x40000000 0x40000001) 0 rfl
  refine ⟨rfl, ?_, st', h3, ?_⟩
  · rw [h1 _ (.long 3) _ _ rfl,
      h1 _ (.array [("service", .string "payments")]) _ _
        (by simp [spec_rule_well_formed, zend_hash_str_find])]
    simp [dd_sampling_rules_loop, payments_rule, zend_hash_str_find, dd_rule_matches,
      sample_env, sample_state, zval_get_double]
  · have hfilter : ({ sample_env [.long 3, .array [("service", .string "payments")],
          payments_rule] (-1) (.finite (1 / 5)) 7 false true with
        get_DD_TRACE_SAMPLING_RULES :=
          (sample_env [.long 3, .array [("service", .string "payments")], payments_rule] (-1)
            (.finite (1 / 5)) 7 false true).get_DD_TRACE_SAMPLING_RULES.filter
            spec_rule_well_formed } : Env Nat Nat)
        = sample_env [payments_rule] (-1) (.finite (1 / 5)) 7 false true := by
      simp [sample_env, List.filter, spec_rule_well_formed, zend_hash_str_find, payments_rule]
    rw [hfilter] at h4
    exact h4

/-! ## C20: the stored priority is concrete -/

/-- C20 fails on the code at this input.  The process default priority is
`5368709121` (`2 ^ 32 + UNSET`) and the root span is fresh, so that the metric
`_sampling_priority_v1` is absent.  The default is not `UNSET`, so the get
passes the test of line 140 and decides; line 61 copies the default into
`int priority`, which is `UNSET` and not `UNKNOWN`, and line 118 stores it:
after `get_from_root`, and after `get_from_active_trace`, the metric holds
`UNSET`, and the next get returns this stored `UNSET`. -/
theorem unset_stored_from_default_narrowed_to_int :
    ∃ st1 : State Nat Nat,
      fresh_root_span (sample_state .null [] [] 5368709121 5368709121) 0 ∧
      zend_hash_str_find ((sample_state .null [] [] 5368709121 5368709121).spans 0).metrics
        "_sampling_priority_v1" = none ∧
      (sample_state .null [] [] 5368709121 5368709121).default_priority_sampling
        ≠ (sample_env [] (-1) (.finite 1) 7 false true).DDTRACE_PRIORITY_SAMPLING_UNSET ∧
      ddtrace_fetch_prioritySampling_from_span (sample_env [] (-1) (.finite 1) 7 false true) 4
        (sample_state .null [] [] 5368709121 5368709121) 0
        = some ((sample_env [] (-1) (.finite 1) 7 false true).DDTRACE_PRIORITY_SAMPLING_UNSET,
          st1) ∧
      ddtrace_fetch_prioritySampling_from_root (sample_env [] (-1) (.finite 1) 7 false true) 4
        (sample_state .null [] [] 5368709121 5368709121)
        = some ((sample_env [] (-1) (.finite 1) 7 false true).DDTRACE_PRIORITY_SAMPLING_UNSET,
          st1) ∧
      zend_hash_str_find (st1.spans 0).metrics "_sampling_priority_v1"
        = some (.long (sample_env [] (-1) (.finite 1) 7 false
          true).DDTRACE_PRIORITY_SAMPLING_UNSET) ∧
      ddtrace_fetch_prioritySampling_from_root (sample_env [] (-1) (.finite 1) 7 false true) 4
        st1
        = some ((sample_env [] (-1) (.finite 1) 7 false true).DDTRACE_PRIORITY_SAMPLING_UNSET,
          st1) := by
  have hint : zend_long_to_int 5368709121 = 0x40000001 := by decide
  obtain ⟨p, hp, _, hfetch⟩ := fetch_decide_root
    (sample_env [] (-1) (.finite 1) 7 false true) 0
    (sample_state .null [] [] 5368709121 5368709121) 0 rfl rfl (by decide)
  have hne : zend_long_to_int
      (sample_state .null [] [] 5368709121 5368709121).default_priority_sampling
      ≠ (sample_env [] (-1) (.finite 1) 7 false true).DDTRACE_PRIORITY_SAMPLING_UNKNOWN := by
    show zend_long_to_int 5368709121 ≠ 0x40000000
    rw [hint]
    decide
  have hstore := store_priority_concrete _ _ 0 hne
  have hp2 : p = 0x40000001 := by
    rw [hstore] at hp
    simp only [Option.some.injEq, Zval.long.injEq] at hp
    rw [← hp]
    exact hint
  subst hp2
  have hstored : zend_hash_str_find ((dd_update_decision_maker_tag_apply
      (sample_env [] (-1) (.finite 1) 7 false true)
      (dd_decide_on_sampling_store (sample_env [] (-1) (.finite 1) 7 false true)
        (sample_state .null [] [] 5368709121 5368709121) 0).1 0
      (dd_decide_on_sampling_store (sample_env [] (-1) (.finite 1) 7 false true)
        (sample_state .null [] [] 5368709121 5368709121) 0).2 0x40000001).spans 0).metrics
      "_sampling_priority_v1" = some (.long 0x40000001) := by
    rw [apply_metrics]
    exact hp
  have hactive : (dd_update_decision_maker_tag_apply
      (sample_env [] (-1) (.finite 1) 7 false true)
      (dd_decide_on_sampling_store (sample_env [] (-1) (.finite 1) 7 false true)
        (sample_state .null [] [] 5368709121 5368709121) 0).1 0
      (dd_decide_on_sampling_store (sample_env [] (-1) (.finite 1) 7 false true)
        (sample_state .null [] [] 5368709121 5368709121) 0).2 0x40000001).root_span
      = some 0 := by
    rw [(apply_globals _ _ _ _ _).2.2.1, (store_globals _ _ _).1]
    rfl
  refine ⟨_, ⟨rfl, rfl, rfl, rfl⟩, rfl, by decide, hfetch, hfetch, hstored, ?_⟩
  simp only [ddtrace_fetch_prioritySampling_from_root, hactive]
  exact fetch_found _ 3 _ 0 _ hstored

end PrioritySampling
